import Mathlib

/-!
Verification of the AI-Merge collaborative synthesis system.

This development shallowly embeds the two Python modules `ai_merge_system.py`
(namespace `AiMergeSystem`) and `multi_modal_ai_merge_system.py`
(namespace `MultiModal`).  Numeric values that the source handles as Python
floats (confidences, quality scores, thresholds such as `0.1`, `0.5`, `0.6`)
are modelled as exact rationals, and submission timestamps (`time.time()`
values that only enter computations through their decimal rendering inside
hash preimages, or are stored verbatim on results) are modelled as naturals.
File-system interaction of the multi-modal validator is modelled by an
explicit `FileSystem` record passed to the checks.  The SHA-256 digest used by
`hashlib.sha256(...).hexdigest()` is implemented in full below so that hash
claims can be settled by computation.
-/

namespace PyLib

/-- Python `str.lower()` (character-wise, matching the ASCII data the system
handles). -/
def pyLower (s : String) : String :=
  ⟨s.data.map Char.toLower⟩

/-- Python `str.upper()` (character-wise). -/
def pyUpper (s : String) : String :=
  ⟨s.data.map Char.toUpper⟩

/-- Python `str.strip()` (no argument): remove leading and trailing
whitespace. -/
def pyStrip (s : String) : String :=
  ⟨((s.data.dropWhile Char.isWhitespace).reverse.dropWhile
      Char.isWhitespace).reverse⟩

/-- Python `str.endswith(suffix)`. -/
def pyEndsWith (s suffix : String) : Bool :=
  suffix.data.isSuffixOf s.data

/-- Python `str.startswith(prefix_)`. -/
def pyStartsWith (s pre : String) : Bool :=
  pre.data.isPrefixOf s.data

/-- Word accumulator of `str.split()`: emit the pending word at each
whitespace run. -/
def splitWsGo : List Char → List Char → List String
  | [], acc => if acc = [] then [] else [⟨acc.reverse⟩]
  | c :: rest, acc =>
      if c.isWhitespace then
        if acc = [] then splitWsGo rest []
        else ⟨acc.reverse⟩ :: splitWsGo rest []
      else splitWsGo rest (c :: acc)

/-- Python `str.split()` (no argument): split on runs of whitespace and drop
empty pieces. -/
def pySplit (s : String) : List String :=
  splitWsGo s.data []

/-- Python `list(set(xs))`: the distinct elements of `xs`.  CPython's set
iteration order is unspecified; we fix first-appearance order. -/
def pySetList {α : Type} [DecidableEq α] (l : List α) : List α :=
  l.foldl (fun acc a => if a ∈ acc then acc else acc ++ [a]) []

/-- `len(set(xs))` for a Python generator `xs`. -/
def pySetCard {α : Type} [DecidableEq α] (l : List α) : ℕ :=
  l.toFinset.card

/-- `len(set(A).intersection(set(B)))` for lists of words. -/
def interCard (a b : List String) : ℕ :=
  ((pySetList a).filter (fun w => w ∈ b)).length

/-- One step of the naive substring search underlying `str.find`. -/
def findIdxGo (pat : List Char) : List Char → ℕ → Option ℕ
  | [], i => if pat.isPrefixOf ([] : List Char) then some i else none
  | c :: rest, i =>
      if pat.isPrefixOf (c :: rest) then some i else findIdxGo pat rest (i + 1)

/-- Index of the first occurrence of `pat` in `s`, if any. -/
def findIdx (s pat : String) : Option ℕ :=
  findIdxGo pat.data s.data 0

/-- Python `s.find(pat)`: index of the first occurrence, `-1` if absent. -/
def pyFind (s pat : String) : ℤ :=
  match findIdx s pat with
  | some i => (i : ℤ)
  | none => -1

/-- Python `pat in s` (substring containment). -/
def pyContains (s pat : String) : Bool :=
  (findIdx s pat).isSome

/-- `pat` occurs in character list `l` starting at position `i`. -/
def occursAt (l pat : List Char) (i : ℕ) : Bool :=
  pat.isPrefixOf (l.drop i)

/-- Split a character list at every occurrence of a separator character. -/
def splitCharGo (sep : Char) : List Char → List Char → List String
  | [], acc => [⟨acc.reverse⟩]
  | c :: rest, acc =>
      if c = sep then ⟨acc.reverse⟩ :: splitCharGo sep rest []
      else splitCharGo sep rest (c :: acc)

/-- Python `pathlib.Path(p).name`: the final path component. -/
def pathName (p : String) : String :=
  (splitCharGo '/' p.data []).getLastD ""

/-- Index just after the last `.` of a character list, if any dot exists. -/
def lastDotSplit (name : List Char) : Option ℕ :=
  let idxs := (List.range name.length).filter (fun i => name.getD i ' ' = '.')
  idxs.getLast?

/-- Python `pathlib.Path(p).suffix`: the extension of the final component,
including the leading dot; empty when the name has no dot or only a leading
dot. -/
def pathSuffix (p : String) : String :=
  let name := (pathName p).data
  match lastDotSplit name with
  | some i => if i = 0 then "" else ⟨name.drop i⟩
  | none => ""

/-- Python `str.title()` restricted to the single lowercase words it is
applied to in the source (`"text"`, `"image"`, ...): capitalize the first
character. -/
def pyTitle (s : String) : String :=
  match s.data with
  | [] => ""
  | c :: cs => ⟨c.toUpper :: cs⟩

end PyLib

namespace Sha256

/-- `2^32`, the word modulus of SHA-256. -/
def M32 : ℕ := 4294967296

/-- Right rotation of a 32-bit word. -/
def rotr (n x : ℕ) : ℕ :=
  ((x >>> n) ||| (x <<< (32 - n))) % M32

/-- Lower-case sigma-0 of the SHA-256 message schedule. -/
def ssig0 (x : ℕ) : ℕ := rotr 7 x ^^^ rotr 18 x ^^^ (x >>> 3)

/-- Lower-case sigma-1 of the SHA-256 message schedule. -/
def ssig1 (x : ℕ) : ℕ := rotr 17 x ^^^ rotr 19 x ^^^ (x >>> 10)

/-- Upper-case sigma-0 of the SHA-256 compression function. -/
def bsig0 (x : ℕ) : ℕ := rotr 2 x ^^^ rotr 13 x ^^^ rotr 22 x

/-- Upper-case sigma-1 of the SHA-256 compression function. -/
def bsig1 (x : ℕ) : ℕ := rotr 6 x ^^^ rotr 11 x ^^^ rotr 25 x

/-- SHA-256 choice function. -/
def chf (x y z : ℕ) : ℕ := (x &&& y) ^^^ ((x ^^^ (M32 - 1)) &&& z)

/-- SHA-256 majority function. -/
def maj (x y z : ℕ) : ℕ := (x &&& y) ^^^ (x &&& z) ^^^ (y &&& z)

/-- The 64 SHA-256 round constants (the fractional parts of the cube roots
of the first 64 primes, written in decimal). -/
def K : List ℕ :=
  [1116352408, 1899447441, 3049323471, 3921009573,
   961987163, 1508970993, 2453635748, 2870763221,
   3624381080, 310598401, 607225278, 1426881987,
   1925078388, 2162078206, 2614888103, 3248222580,
   3835390401, 4022224774, 264347078, 604807628,
   770255983, 1249150122, 1555081692, 1996064986,
   2554220882, 2821834349, 2952996808, 3210313671,
   3336571891, 3584528711, 113926993, 338241895,
   666307205, 773529912, 1294757372, 1396182291,
   1695183700, 1986661051, 2177026350, 2456956037,
   2730485921, 2820302411, 3259730800, 3345764771,
   3516065817, 3600352804, 4094571909, 275423344,
   430227734, 506948616, 659060556, 883997877,
   958139571, 1322822218, 1537002063, 1747873779,
   1955562222, 2024104815, 2227730452, 2361852424,
   2428436474, 2756734187, 3204031479, 3329325298]

/-- The initial SHA-256 hash state (decimal rendering of the standard
initialization vector). -/
def H0 : List ℕ :=
  [1779033703, 3144134277, 1013904242, 2773480762,
   1359893119, 2600822924, 528734635, 1541459225]

/-- UTF-8 encoding of a single character (Python `str.encode()`). -/
def charUtf8 (c : Char) : List ℕ :=
  let n := c.toNat
  if n < 0x80 then [n]
  else if n < 0x800 then [0xC0 + n / 64, 0x80 + n % 64]
  else if n < 0x10000 then
    [0xE0 + n / 4096, 0x80 + (n / 64) % 64, 0x80 + n % 64]
  else
    [0xF0 + n / 262144, 0x80 + (n / 4096) % 64, 0x80 + (n / 64) % 64,
     0x80 + n % 64]

/-- UTF-8 byte sequence of a string. -/
def utf8Bytes (s : String) : List ℕ :=
  (s.data.map charUtf8).flatten

/-- Big-endian byte decomposition, `k` bytes. -/
def bytesBE (k n : ℕ) : List ℕ :=
  (List.range k).map (fun i => (n >>> (8 * (k - 1 - i))) % 256)

/-- SHA-256 padding: append `0x80`, zero bytes, and the 64-bit bit length. -/
def pad (msg : List ℕ) : List ℕ :=
  let z := (120 - (msg.length + 1) % 64) % 64
  msg ++ [0x80] ++ List.replicate z 0 ++ bytesBE 8 (8 * msg.length)

/-- Split a byte list into 64-byte blocks (fuel-indexed structural recursion;
`l.length` fuel always suffices since every step consumes 64 bytes). -/
def chunk64Go : ℕ → List ℕ → List (List ℕ)
  | 0, _ => []
  | n + 1, l => if l = [] then [] else (l.take 64) :: chunk64Go n (l.drop 64)

/-- Split a byte list into 64-byte blocks. -/
def chunk64 (l : List ℕ) : List (List ℕ) :=
  chunk64Go l.length l

/-- The 16 big-endian words of a 64-byte block. -/
def wordsOf (block : List ℕ) : List ℕ :=
  (List.range 16).map
    (fun i => ((block.drop (4 * i)).take 4).foldl (fun acc b => acc * 256 + b) 0)

/-- Extend 16 schedule words to 64. -/
def extendW (w : List ℕ) : List ℕ :=
  (List.range' 16 48).foldl
    (fun w i =>
      w ++ [(ssig1 (w.getD (i - 2) 0) + w.getD (i - 7) 0 +
             ssig0 (w.getD (i - 15) 0) + w.getD (i - 16) 0) % M32])
    w

/-- One SHA-256 compression step over a 64-byte block. -/
def compress (h : List ℕ) (block : List ℕ) : List ℕ :=
  let w := extendW (wordsOf block)
  let v := (List.range 64).foldl
    (fun s i =>
      match s with
      | [a, b, c, d, e, f, g, hh] =>
        let t1 := (hh + bsig1 e + chf e f g + K.getD i 0 + w.getD i 0) % M32
        let t2 := (bsig0 a + maj a b c) % M32
        [(t1 + t2) % M32, a, b, c, (d + t1) % M32, e, f, g]
      | s => s)
    h
  (h.zip v).map (fun p => (p.1 + p.2) % M32)

/-- SHA-256 digest of a byte list, as eight 32-bit words. -/
def digestWords (msg : List ℕ) : List ℕ :=
  (chunk64 (pad msg)).foldl compress H0

/-- Lower-case hexadecimal digit. -/
def hexDigit (n : ℕ) : Char :=
  if n < 10 then Char.ofNat (48 + n) else Char.ofNat (87 + n)

/-- Two-digit lower-case hex rendering of a byte. -/
def byteHex (b : ℕ) : List Char :=
  [hexDigit (b / 16), hexDigit (b % 16)]

/-- Python `hashlib.sha256(s.encode()).hexdigest()`. -/
def sha256hex (s : String) : String :=
  ⟨((((digestWords (utf8Bytes s)).map (bytesBE 4)).flatten).map byteHex).flatten⟩

end Sha256

set_option maxRecDepth 100000

/-- Sanity check of the SHA-256 implementation against the standard `"abc"`
test vector. -/
theorem sha256hex_abc :
    Sha256.sha256hex "abc" =
      "ba7816bf8f01cfea414140de5dae2223b00361a396177a9cb410ff61f20015ad" := by
  decide

/-- Sanity check of the SHA-256 implementation on the empty message. -/
theorem sha256hex_empty :
    Sha256.sha256hex "" =
      "e3b0c44298fc1c149afbf4c8996fb92427ae41e4649b934ca495991b7852b855" := by
  decide

namespace AiMergeSystem

open PyLib

/-- The four merge strategies of `ai_merge_system.MergeStrategy`. -/
inductive MergeStrategy
  | synthesis
  | consensus
  | complementary
  | competitive_eval
deriving DecidableEq, Repr

/-- `ai_merge_system.Contribution`.  The `metadata` bag is an open key/value
map never read by the core and is omitted.  `timestamp` is the `time.time()`
float, modelled as a natural; only its decimal rendering enters the hash. -/
structure Contribution where
  agent_id : String
  content : String
  timestamp : ℕ
  confidence : ℚ
  hash : String
deriving DecidableEq, Repr

/-- `Contribution._generate_hash`:
`sha256(f"{agent_id}{content}{timestamp}".encode()).hexdigest()`. -/
def generate_hash (agent_id content : String) (timestamp : ℕ) : String :=
  Sha256.sha256hex (agent_id ++ content ++ toString timestamp)

/-- The `Contribution` dataclass constructor together with `__post_init__`,
which fills in the hash exactly when the supplied hash is falsy (empty). -/
def mkContribution (agent_id content : String) (timestamp : ℕ)
    (confidence : ℚ) (hash : String) : Contribution :=
  { agent_id := agent_id, content := content, timestamp := timestamp,
    confidence := confidence,
    hash := if hash = "" then generate_hash agent_id content timestamp
            else hash }

/-- The `(ok, issues)` pair each validation rule returns. -/
structure RuleResult where
  valid : Bool
  issues : List String
deriving Repr

/-- Every rule in the source builds its result as
`{"valid": len(issues) == 0, "issues": issues}`. -/
def ruleResult (issues : List String) : RuleResult :=
  ⟨issues.isEmpty, issues⟩

/-- `ContributionValidator._check_completeness`. -/
def check_completeness (c : Contribution) (_ctx : String) : RuleResult :=
  ruleResult
    (if (PyLib.pyStrip c.content).length < 10 then
      ["Contribution is too brief to be meaningful"]
     else [])

/-- `ContributionValidator._check_coherence`. -/
def check_coherence (c : Contribution) (_ctx : String) : RuleResult :=
  let content := PyLib.pyStrip c.content
  ruleResult
    (if PyLib.pyEndsWith content "..." ∨ PyLib.pyEndsWith content ". ." ∨
        PyLib.pyEndsWith content ".." then
      ["Contribution appears incomplete"]
     else [])

/-- `ContributionValidator._check_relevance`.  The guard
`if context and len(context) > 10` is nonempty-and-long, i.e. length > 10. -/
def check_relevance (c : Contribution) (ctx : String) : RuleResult :=
  ruleResult
    (if ctx ≠ "" ∧ 10 < ctx.length then
      let context_words := pySetList ((pySplit (pyLower ctx)).take 20)
      let contrib_words := (pySplit (pyLower c.content)).take 20
      if (context_words.filter (fun w => w ∈ contrib_words)).length < 2 then
        ["Contribution appears unrelated to context"]
      else []
     else [])

/-- `ContributionValidator._check_consistency`: flags contents whose first
`"yes"` and first `"no"` occurrences are fewer than 100 positions apart. -/
def check_consistency (c : Contribution) (_ctx : String) : RuleResult :=
  let content := PyLib.pyLower c.content
  ruleResult
    (if pyContains content "yes" ∧ pyContains content "no" ∧
        (pyFind content "yes" - pyFind content "no").natAbs < 100 then
      ["Potential contradiction detected"]
     else [])

/-- `_calculate_quality_score`, shared verbatim by `ContributionValidator`
and `MultiModalValidator` (the two classes carry textually identical
copies). -/
def calculate_quality_score (issues : List String) : ℚ :=
  let base_score : ℚ := 1 - min ((issues.length : ℚ) * 0.1) 0.5
  max 0 (min 1 base_score)

/-- `ContributionValidator.validate`'s result record (`suggestions` is never
populated by the source and is omitted). -/
structure ValidationResult where
  valid : Bool
  issues : List String
  quality_score : ℚ
deriving Repr

/-- The accumulation loop of `validate`: a failing rule flips `valid` and
appends its issues. -/
def ruleFold (rs : List RuleResult) : Bool × List String :=
  rs.foldl
    (fun acc r => if !r.valid then (false, acc.2 ++ r.issues) else acc)
    (true, [])

/-- `ContributionValidator.validate`. -/
def validate (c : Contribution) (ctx : String) : ValidationResult :=
  let rs := [check_completeness c ctx, check_coherence c ctx,
             check_relevance c ctx, check_consistency c ctx]
  let p := ruleFold rs
  { valid := p.1, issues := p.2,
    quality_score := calculate_quality_score p.2 }

/-- `ai_merge_system.MergeResult` (the open `metadata` bag, which only
repeats the validation map and input counts, is omitted). -/
structure MergeResult where
  strategy : MergeStrategy
  merged_content : String
  contributing_agents : List String
  confidence_score : ℚ
  timestamp : ℕ
  validation_results : List (String × ValidationResult)

/-- Python dict assignment `m[k] = v`: replace the first binding of `k` or
append a new one. -/
def dictInsert {α : Type} :
    List (String × α) → String → α → List (String × α)
  | [], k, v => [(k, v)]
  | (k', v') :: rest, k, v =>
      if k' = k then (k, v) :: rest else (k', v') :: dictInsert rest k v

/-- Python dict lookup `m.get(k)`. -/
def dictLookup {α : Type} (m : List (String × α)) (k : String) : Option α :=
  (m.find? (fun p => p.1 = k)).map (fun p => p.2)

/-- Python dict-of-lists accumulation: ensure a (possibly fresh, appended at
the end) binding for `k` and append `v` to it. -/
def groupInsert {κ : Type} [DecidableEq κ] {α : Type} :
    List (κ × List α) → κ → α → List (κ × List α)
  | [], k, v => [(k, [v])]
  | (k', vs) :: rest, k, v =>
      if k' = k then (k', vs ++ [v]) :: rest
      else (k', vs) :: groupInsert rest k v

/-- `sum(c.confidence for c in l) / len(l) if l else 0.0`, the average
used by every strategy. -/
def avgConfidence (l : List Contribution) : ℚ :=
  if l = [] then 0 else ((l.map (fun c => c.confidence)).sum) / l.length

/-- The agent-grouping loop of `SynthesisEngine._synthesize`. -/
def agentGroups (l : List Contribution) : List (String × List String) :=
  l.foldl (fun m c => groupInsert m c.agent_id c.content) []

/-- `SynthesisEngine._synthesize`. -/
def synthesize (contributions : List Contribution) : String × ℚ :=
  let agent_contribs := agentGroups contributions
  let synthesized_parts := agent_contribs.map
    (fun p => "[" ++ p.1 ++ " Perspective]: " ++
      String.intercalate "; " (p.2.take 2))
  let final_synthesis := String.intercalate "\n\n" synthesized_parts
  let avg_confidence := avgConfidence contributions
  let agent_diversity_factor : ℚ := min ((agent_contribs.length : ℚ) / 5) 1
  (final_synthesis, min (avg_confidence * (1 + agent_diversity_factor)) 1)

/-- The word-frequency accumulation of `_find_consensus`: words longer than
3 characters, counted across all texts, insertion-ordered. -/
def wordFreqOf (texts : List String) : List (String × ℕ) :=
  texts.foldl
    (fun m t =>
      (pySplit t).foldl
        (fun m word =>
          if 3 < word.length then
            match dictLookup m word with
            | some n => dictInsert m word (n + 1)
            | none => dictInsert m word 1
          else m)
        m)
    []

/-- `SynthesisEngine._find_consensus`. -/
def find_consensus (contributions : List Contribution) : String × ℚ :=
  let all_texts := contributions.map (fun c => PyLib.pyLower c.content)
  let word_freq := wordFreqOf all_texts
  let consensus_threshold : ℚ := (contributions.length : ℚ) * 0.6
  let consensus_words :=
    (word_freq.filter (fun p => consensus_threshold ≤ (p.2 : ℚ))).map
      (fun p => p.1)
  let consensus_content :=
    "Consensus points: " ++ String.intercalate ", " (consensus_words.take 10)
  let consensus_ratio :=
    (consensus_words.length : ℚ) / max (word_freq.length : ℚ) 1
  let avg_confidence := avgConfidence contributions
  (consensus_content, (consensus_ratio + avg_confidence) / 2)

/-- The bucket classifier of `_combine_complementary`. -/
def complementaryCategory (c : Contribution) : String :=
  if c.content.length < 100 then "brief_insight"
  else if pyContains (pyLower c.content) "solution" ∨
          pyContains (pyLower c.content) "approach" then "solution_approach"
  else if pyContains (pyLower c.content) "problem" ∨
          pyContains (pyLower c.content) "issue" then "problem_identification"
  else "general_input"

/-- `SynthesisEngine._combine_complementary`. -/
def combine_complementary (contributions : List Contribution) : String × ℚ :=
  let aspects := contributions.foldl
    (fun m c => groupInsert m (complementaryCategory c) c.content) []
  let combined_parts := aspects.map
    (fun p => "[" ++ PyLib.pyUpper p.1 ++ "]: " ++ String.intercalate "; " p.2)
  let combined_content := String.intercalate "\n\n" combined_parts
  let avg_confidence := avgConfidence contributions
  let aspect_diversity_factor : ℚ := min ((aspects.length : ℚ) / 4) 1
  (combined_content, min (avg_confidence * (1 + aspect_diversity_factor)) 1)

/-- `%.2f` formatting of a nonnegative rational confidence (Python renders
the value rounded half-to-even to two decimals). -/
def format2 (q : ℚ) : String :=
  let scaled := q * 100
  let f := Int.fdiv scaled.num scaled.den
  let r := scaled - (f : ℚ)
  let n : ℤ :=
    if r < 1 / 2 then f
    else if 1 / 2 < r then f + 1
    else if f % 2 = 0 then f else f + 1
  toString (n / 100) ++ "." ++
    (if n % 100 < 10 then "0" else "") ++ toString (n % 100)

/-- Stable descending insertion by confidence: the step of
`sorted(contributions, key=lambda x: x.confidence, reverse=True)`. -/
def insertDesc (c : Contribution) : List Contribution → List Contribution
  | [] => [c]
  | x :: xs =>
      if x.confidence ≤ c.confidence then c :: x :: xs
      else x :: insertDesc c xs

/-- Python's stable `sorted(..., key=lambda x: x.confidence, reverse=True)`:
equal keys keep submission order. -/
def sortedByConfDesc (l : List Contribution) : List Contribution :=
  l.foldr insertDesc []

/-- `SynthesisEngine._competitive_evaluation`. -/
def competitive_evaluation (contributions : List Contribution) : String × ℚ :=
  match sortedByConfDesc contributions with
  | [] => ("", 0)
  | best_contrib :: _ =>
      ("[Selected for highest confidence: " ++
         format2 best_contrib.confidence ++ "] " ++ best_contrib.content,
       best_contrib.confidence)

/-- The surviving contributions of a merge call: those the validator marks
valid. -/
def validatedContribs (contributions : List Contribution) (ctx : String) :
    List Contribution :=
  contributions.filter (fun c => (validate c ctx).valid)

/-- The per-hash validation map a merge call accumulates. -/
def validationMap (contributions : List Contribution) (ctx : String) :
    List (String × ValidationResult) :=
  contributions.foldl (fun m c => dictInsert m c.hash (validate c ctx)) []

/-- `SynthesisEngine.merge_contributions`.  `now` stands for the
`time.time()` call stamped on the result. -/
def merge_contributions (contributions : List Contribution)
    (strategy : MergeStrategy) (ctx : String) (now : ℕ) : MergeResult :=
  let validation_results := validationMap contributions ctx
  let validated_contributions := validatedContribs contributions ctx
  if validated_contributions = [] then
    { strategy := strategy,
      merged_content := "No valid contributions to merge",
      contributing_agents := [],
      confidence_score := 0,
      timestamp := now,
      validation_results := validation_results }
  else
    let mc := match strategy with
      | .synthesis => synthesize validated_contributions
      | .consensus => find_consensus validated_contributions
      | .complementary => combine_complementary validated_contributions
      | .competitive_eval => competitive_evaluation validated_contributions
    { strategy := strategy,
      merged_content := mc.1,
      contributing_agents :=
        pySetList (validated_contributions.map (fun c => c.agent_id)),
      confidence_score := mc.2,
      timestamp := now,
      validation_results := validation_results }

end AiMergeSystem

namespace MultiModal

open PyLib

/-- `multi_modal_ai_merge_system.ModalityType`. -/
inductive ModalityType
  | text
  | image
  | audio
  | video
  | multimodal
deriving DecidableEq, Repr

/-- The `.value` string of a `ModalityType` member. -/
def ModalityType.value : ModalityType → String
  | .text => "text"
  | .image => "image"
  | .audio => "audio"
  | .video => "video"
  | .multimodal => "multimodal"

/-- `MultiModalContent`: at most one payload per modality slot, plus an open
metadata bag (omitted).  Media paths are modelled as path strings. -/
structure MultiModalContent where
  text : Option String := none
  image_path : Option String := none
  audio_path : Option String := none
  video_path : Option String := none
deriving DecidableEq, Repr

/-- Python truthiness of an optional string payload: `None` and `""` are
falsy. -/
def textFalsy : Option String → Bool
  | none => true
  | some t => t = ""

/-- `MultiModalContribution` (metadata bag omitted; `timestamp` as in the
text-only system). -/
structure MultiModalContribution where
  agent_id : String
  content : MultiModalContent
  modality : ModalityType
  timestamp : ℕ
  confidence : ℚ
  hash : String
deriving DecidableEq, Repr

/-- `MultiModalContribution._generate_hash`: the preimage is
`agent_id + modality.value + timestamp`, extended with the first 100
characters of the text payload when that payload is truthy. -/
def generate_hash (agent_id : String) (content : MultiModalContent)
    (modality : ModalityType) (timestamp : ℕ) : String :=
  let content_str := agent_id ++ modality.value ++ toString timestamp
  let content_str :=
    if textFalsy content.text then content_str
    else content_str ++ (content.text.getD "").take 100
  Sha256.sha256hex content_str

/-- The `MultiModalContribution` dataclass constructor with `__post_init__`:
the hash is filled in exactly when the supplied hash is empty. -/
def mkMMContribution (agent_id : String) (content : MultiModalContent)
    (modality : ModalityType) (timestamp : ℕ) (confidence : ℚ)
    (hash : String) : MultiModalContribution :=
  { agent_id := agent_id, content := content, modality := modality,
    timestamp := timestamp, confidence := confidence,
    hash := if hash = "" then generate_hash agent_id content modality timestamp
            else hash }

/-- The file-system environment the media checks consult: `Path.exists()`
and `Path.stat().st_size` (`none` models an `OSError` from `stat`). -/
structure FileSystem where
  pathExists : String → Bool
  statSize : String → Option ℕ

open AiMergeSystem (RuleResult ruleResult calculate_quality_score)

/-- `MultiModalValidator._check_text_completeness`. -/
def check_text_completeness (c : MultiModalContribution) (_ctx : String) :
    RuleResult :=
  if c.modality ≠ ModalityType.text ∨ textFalsy c.content.text then
    ruleResult []
  else
    ruleResult
      (if (PyLib.pyStrip (c.content.text.getD "")).length < 10 then
        ["Text contribution is too brief to be meaningful"]
       else [])

/-- `MultiModalValidator._check_text_coherence`. -/
def check_text_coherence (c : MultiModalContribution) (_ctx : String) :
    RuleResult :=
  if c.modality ≠ ModalityType.text ∨ textFalsy c.content.text then
    ruleResult []
  else
    let content := PyLib.pyStrip (c.content.text.getD "")
    ruleResult
      (if PyLib.pyEndsWith content "..." ∨ PyLib.pyEndsWith content ". ." ∨
          PyLib.pyEndsWith content ".." then
        ["Text contribution appears incomplete"]
       else [])

/-- `MultiModalValidator._check_text_relevance`.  Unlike the text-only
validator, the guard only requires a truthy (nonempty) context: there is no
`len(context) > 10` threshold. -/
def check_text_relevance (c : MultiModalContribution) (ctx : String) :
    RuleResult :=
  if c.modality ≠ ModalityType.text ∨ textFalsy c.content.text ∨ ctx = "" then
    ruleResult []
  else
    let context_words := pySetList ((pySplit (pyLower ctx)).take 20)
    let contrib_words :=
      (pySplit (pyLower (c.content.text.getD ""))).take 20
    ruleResult
      (if (context_words.filter (fun w => w ∈ contrib_words)).length < 2 then
        ["Text contribution appears unrelated to context"]
       else [])

/-- `MultiModalValidator._check_image_validity`. -/
def check_image_validity (fs : FileSystem) (c : MultiModalContribution)
    (_ctx : String) : RuleResult :=
  match c.content.image_path with
  | none => ruleResult []
  | some p =>
    if c.modality ≠ ModalityType.image then ruleResult []
    else
      ruleResult
        (if ¬ fs.pathExists p then ["Image file does not exist: " ++ p]
         else if ¬ pyLower (pathSuffix p) ∈
             [".jpg", ".jpeg", ".png", ".gif", ".bmp", ".webp"] then
           ["Unsupported image format: " ++ pathSuffix p]
         else [])

/-- `MultiModalValidator._check_image_quality`. -/
def check_image_quality (fs : FileSystem) (c : MultiModalContribution)
    (_ctx : String) : RuleResult :=
  match c.content.image_path with
  | none => ruleResult []
  | some p =>
    if c.modality ≠ ModalityType.image then ruleResult []
    else
      ruleResult
        (match fs.statSize p with
         | some size =>
             if size < 1024 then
               ["Image file size is unusually small, may be corrupted or blank"]
             else []
         | none => ["Could not access image file to check quality"])

/-- `MultiModalValidator._check_image_relevance` (documented stub). -/
def check_image_relevance (_fs : FileSystem) (_c : MultiModalContribution)
    (_ctx : String) : RuleResult :=
  ruleResult []

/-- `MultiModalValidator._check_audio_validity`. -/
def check_audio_validity (fs : FileSystem) (c : MultiModalContribution)
    (_ctx : String) : RuleResult :=
  match c.content.audio_path with
  | none => ruleResult []
  | some p =>
    if c.modality ≠ ModalityType.audio then ruleResult []
    else
      ruleResult
        (if ¬ fs.pathExists p then ["Audio file does not exist: " ++ p]
         else if ¬ pyLower (pathSuffix p) ∈
             [".mp3", ".wav", ".aac", ".ogg", ".flac"] then
           ["Unsupported audio format: " ++ pathSuffix p]
         else [])

/-- `MultiModalValidator._check_audio_quality`. -/
def check_audio_quality (fs : FileSystem) (c : MultiModalContribution)
    (_ctx : String) : RuleResult :=
  match c.content.audio_path with
  | none => ruleResult []
  | some p =>
    if c.modality ≠ ModalityType.audio then ruleResult []
    else
      ruleResult
        (match fs.statSize p with
         | some size =>
             if size < 1024 then
               ["Audio file size is unusually small, may be corrupted or silent"]
             else []
         | none => ["Could not access audio file to check quality"])

/-- `MultiModalValidator._check_audio_relevance` (documented stub). -/
def check_audio_relevance (_fs : FileSystem) (_c : MultiModalContribution)
    (_ctx : String) : RuleResult :=
  ruleResult []

/-- `MultiModalValidator._check_video_validity`. -/
def check_video_validity (fs : FileSystem) (c : MultiModalContribution)
    (_ctx : String) : RuleResult :=
  match c.content.video_path with
  | none => ruleResult []
  | some p =>
    if c.modality ≠ ModalityType.video then ruleResult []
    else
      ruleResult
        (if ¬ fs.pathExists p then ["Video file does not exist: " ++ p]
         else if ¬ pyLower (pathSuffix p) ∈
             [".mp4", ".avi", ".mov", ".mkv", ".wmv"] then
           ["Unsupported video format: " ++ pathSuffix p]
         else [])

/-- `MultiModalValidator._check_video_quality`. -/
def check_video_quality (fs : FileSystem) (c : MultiModalContribution)
    (_ctx : String) : RuleResult :=
  match c.content.video_path with
  | none => ruleResult []
  | some p =>
    if c.modality ≠ ModalityType.video then ruleResult []
    else
      ruleResult
        (match fs.statSize p with
         | some size =>
             if size < 10240 then
               ["Video file size is unusually small, may be corrupted or empty"]
             else []
         | none => ["Could not access video file to check quality"])

/-- `MultiModalValidator._check_video_relevance` (documented stub). -/
def check_video_relevance (_fs : FileSystem) (_c : MultiModalContribution)
    (_ctx : String) : RuleResult :=
  ruleResult []

/-- The `validation_rules` dispatch table: `dict.get(modality, [])` yields
no checks for `MULTIMODAL`. -/
def validationRules (fs : FileSystem) (m : ModalityType) :
    List (MultiModalContribution → String → RuleResult) :=
  match m with
  | .text => [check_text_completeness, check_text_coherence,
              check_text_relevance]
  | .image => [check_image_validity fs, check_image_quality fs,
               check_image_relevance fs]
  | .audio => [check_audio_validity fs, check_audio_quality fs,
               check_audio_relevance fs]
  | .video => [check_video_validity fs, check_video_quality fs,
               check_video_relevance fs]
  | .multimodal => []

/-- `MultiModalValidator.validate`'s result record (`suggestions` is never
populated and is omitted). -/
structure MMValidationResult where
  valid : Bool
  issues : List String
  quality_score : ℚ
  modality : String
deriving Repr

/-- `MultiModalValidator.validate`. -/
def validate (fs : FileSystem) (c : MultiModalContribution) (ctx : String) :
    MMValidationResult :=
  let rs := (validationRules fs c.modality).map (fun r => r c ctx)
  let p := AiMergeSystem.ruleFold rs
  { valid := p.1, issues := p.2,
    quality_score := calculate_quality_score p.2,
    modality := c.modality.value }

/-- `MultiModalMergeResult` (open metadata bag omitted). -/
structure MultiModalMergeResult where
  strategy : String
  merged_content : MultiModalContent
  contributing_agents : List String
  confidence_score : ℚ
  timestamp : ℕ
  validation_results : List (String × MMValidationResult)
  output_modality : ModalityType

/-- Average confidence, `0.0` on an empty list, as in the source. -/
def avgConfidence (l : List MultiModalContribution) : ℚ :=
  if l = [] then 0 else ((l.map (fun c => c.confidence)).sum) / l.length

/-- `MultiModalSynthesisEngine._text_synthesis` (fallback for unrecognized
strategy strings). -/
def text_synthesis (contributions : List MultiModalContribution) :
    MultiModalContent × ℚ :=
  let text_parts := contributions.filterMap
    (fun c =>
      if textFalsy c.content.text then none
      else some ("[" ++ c.agent_id ++ "]: " ++ c.content.text.getD ""))
  let combined_text := String.intercalate "\n\n" text_parts
  let valid_contribs :=
    contributions.filter (fun c => ¬ textFalsy c.content.text)
  let avg_confidence := avgConfidence valid_contribs
  let agent_diversity_factor : ℚ :=
    min ((pySetCard (valid_contribs.map (fun c => c.agent_id)) : ℚ) / 5) 1
  ({ text := some combined_text },
   min (avg_confidence * (1 + agent_diversity_factor)) 1)

/-- The per-contribution summary line of `_cross_modal_synthesis` (the
`if/elif` chain with no `else`: unmatched contributions produce no line). -/
def crossModalLine (c : MultiModalContribution) : Option String :=
  if c.modality = ModalityType.text ∧ ¬ textFalsy c.content.text then
    some ("Text from " ++ c.agent_id ++ ": " ++
      (c.content.text.getD "").take 100 ++ "...")
  else if c.modality = ModalityType.image ∧ c.content.image_path.isSome then
    some ("Image from " ++ c.agent_id ++ ": " ++
      pathName (c.content.image_path.getD ""))
  else if c.modality = ModalityType.audio ∧ c.content.audio_path.isSome then
    some ("Audio from " ++ c.agent_id ++ ": " ++
      pathName (c.content.audio_path.getD ""))
  else if c.modality = ModalityType.video ∧ c.content.video_path.isSome then
    some ("Video from " ++ c.agent_id ++ ": " ++
      pathName (c.content.video_path.getD ""))
  else none

/-- `MultiModalSynthesisEngine._cross_modal_synthesis`.  Note that neither
`modality_diversity = distinct_modalities / 4` nor
`agent_diversity = distinct_agents / 5` is clamped. -/
def cross_modal_synthesis (contributions : List MultiModalContribution) :
    MultiModalContent × ℚ :=
  let summary_text :=
    String.intercalate "\n" (contributions.filterMap crossModalLine)
  let modality_diversity : ℚ :=
    (pySetCard (contributions.map (fun c => c.modality)) : ℚ) / 4
  let agent_diversity : ℚ :=
    (pySetCard (contributions.map (fun c => c.agent_id)) : ℚ) / 5
  let avg_confidence := avgConfidence contributions
  ({ text := some summary_text },
   (modality_diversity + agent_diversity + avg_confidence) / 3)

/-- The modality-grouping loop of `_modality_specific_synthesis`. -/
def modalityGroups (l : List MultiModalContribution) :
    List (ModalityType × List MultiModalContribution) :=
  l.foldl (fun m c => AiMergeSystem.groupInsert m c.modality c) []

/-- `MultiModalSynthesisEngine._modality_specific_synthesis`. -/
def modality_specific_synthesis
    (contributions : List MultiModalContribution) : MultiModalContent × ℚ :=
  let modality_groups := modalityGroups contributions
  let summary_parts := modality_groups.map
    (fun p =>
      let agent_names := String.intercalate ", "
        (pySetList (p.2.map (fun c => c.agent_id)))
      pyTitle p.1.value ++ " inputs from " ++ agent_names ++ ": " ++
        toString p.2.length ++ " items")
  let summary_text := String.intercalate "\n" summary_parts
  let avg_confidence := avgConfidence contributions
  let modality_diversity_factor : ℚ :=
    min ((modality_groups.length : ℚ) / 3) 1
  ({ text := some summary_text },
   min (avg_confidence * (1 + modality_diversity_factor)) 1)

/-- `MultiModalSynthesisEngine._multimodal_consensus`. -/
def multimodal_consensus (contributions : List MultiModalContribution) :
    MultiModalContent × ℚ :=
  let text_contents := contributions.filterMap
    (fun c =>
      if textFalsy c.content.text then none
      else some (PyLib.pyLower (c.content.text.getD "")))
  if text_contents = [] then
    let agent_names := String.intercalate ", "
      (pySetList (contributions.map (fun c => c.agent_id)))
    let modality_names := String.intercalate ", "
      (pySetList (contributions.map (fun c => c.modality.value)))
    ({ text := some ("Multimodal consensus from " ++ agent_names ++
        " across " ++ modality_names ++ " modalities") }, 0.5)
  else
    let all_words :=
      (text_contents.map
        (fun t => (pySplit t).filter (fun w => 3 < w.length))).flatten
    let word_freq := all_words.foldl
      (fun m w =>
        match AiMergeSystem.dictLookup m w with
        | some n => AiMergeSystem.dictInsert m w (n + 1)
        | none => AiMergeSystem.dictInsert m w 1)
      []
    let sorted_words := word_freq.foldr
      (fun p acc => insertByCountDesc p acc) []
    let consensus_words := (sorted_words.take 10).map (fun p => p.1)
    let consensus_text :=
      "Consensus points: " ++ String.intercalate ", " consensus_words
    let avg_confidence := avgConfidence contributions
    let consensus_ratio :=
      (consensus_words.length : ℚ) / max (word_freq.length : ℚ) 1
    ({ text := some consensus_text },
     (consensus_ratio + avg_confidence) / 2)
where
  /-- Stable descending insertion by count: the step of
  `sorted(word_freq.items(), key=lambda x: x[1], reverse=True)`. -/
  insertByCountDesc (p : String × ℕ) :
      List (String × ℕ) → List (String × ℕ)
    | [] => [p]
    | q :: qs =>
        if q.2 ≤ p.2 then p :: q :: qs else q :: insertByCountDesc p qs

/-- The surviving multi-modal contributions of a merge call. -/
def validatedContribs (fs : FileSystem)
    (contributions : List MultiModalContribution) (ctx : String) :
    List MultiModalContribution :=
  contributions.filter (fun c => (validate fs c ctx).valid)

/-- The per-hash validation map a multi-modal merge call accumulates. -/
def validationMap (fs : FileSystem)
    (contributions : List MultiModalContribution) (ctx : String) :
    List (String × MMValidationResult) :=
  contributions.foldl
    (fun m c => AiMergeSystem.dictInsert m c.hash (validate fs c ctx)) []

/-- The output-modality resolution step of
`MultiModalSynthesisEngine.merge_contributions`. -/
def resolveOutputModality (input_modalities : List ModalityType) :
    ModalityType :=
  if ModalityType.video ∈ input_modalities then ModalityType.video
  else if ModalityType.audio ∈ input_modalities then ModalityType.audio
  else if ModalityType.image ∈ input_modalities then ModalityType.image
  else ModalityType.text

/-- The strategy dispatch of the multi-modal `merge_contributions`: the
`if/elif` chain over the strategy string, defaulting to text synthesis. -/
def applyStrategy (strategy : String)
    (l : List MultiModalContribution) : MultiModalContent × ℚ :=
  if strategy = "cross_modal_synthesis" then cross_modal_synthesis l
  else if strategy = "modality_specific" then modality_specific_synthesis l
  else if strategy = "multimodal_consensus" then multimodal_consensus l
  else text_synthesis l

/-- `MultiModalSynthesisEngine.merge_contributions`. -/
def merge_contributions (fs : FileSystem)
    (contributions : List MultiModalContribution) (strategy : String)
    (ctx : String) (now : ℕ) : MultiModalMergeResult :=
  let validation_results := validationMap fs contributions ctx
  let validated_contributions := validatedContribs fs contributions ctx
  if validated_contributions = [] then
    { strategy := strategy,
      merged_content := { text := some "No valid contributions to merge" },
      contributing_agents := [],
      confidence_score := 0,
      timestamp := now,
      validation_results := validation_results,
      output_modality := ModalityType.text }
  else
    let input_modalities :=
      validated_contributions.map (fun c => c.modality)
    let output_modality := resolveOutputModality input_modalities
    let mc := applyStrategy strategy validated_contributions
    { strategy := strategy,
      merged_content := mc.1,
      contributing_agents :=
        pySetList (validated_contributions.map (fun c => c.agent_id)),
      confidence_score := mc.2,
      timestamp := now,
      validation_results := validation_results,
      output_modality := output_modality }

end MultiModal

namespace AiMergeSystem

/-- The well-formedness every source rule result satisfies by construction:
the `valid` flag is exactly emptiness of the issue list. -/
def RuleOK (r : RuleResult) : Prop := r.valid = r.issues.isEmpty

/-- `ruleResult` always produces a well-formed rule result. -/
theorem ruleResult_ok (issues : List String) : RuleOK (ruleResult issues) :=
  rfl

/-- The validation fold preserves the invariant that the accumulated flag is
emptiness of the accumulated issues, provided every rule is well-formed. -/
theorem ruleFold_go (rs : List RuleResult) (h : ∀ r ∈ rs, RuleOK r) :
    ∀ acc : Bool × List String, acc.1 = acc.2.isEmpty →
      (rs.foldl
        (fun acc r => if !r.valid then (false, acc.2 ++ r.issues) else acc)
        acc).1 =
      (rs.foldl
        (fun acc r => if !r.valid then (false, acc.2 ++ r.issues) else acc)
        acc).2.isEmpty := by
  induction rs with
  | nil => intro acc hacc; simpa using hacc
  | cons r rs ih =>
      intro acc hacc
      simp only [List.foldl_cons]
      refine ih (fun r hr => h r (List.mem_cons_of_mem _ hr)) _ ?_
      by_cases hv : r.valid = true
      · simp [hv, hacc]
      · have hOK := h r (List.mem_cons_self _ _)
        unfold RuleOK at hOK
        have hne : r.issues ≠ [] := by
          intro hnil
          rw [hnil] at hOK
          simp at hOK
          exact hv hOK
        simp only [Bool.eq_false_iff.mpr hv]
        simp [List.isEmpty_iff, hne]

/-- On well-formed rule results, the fold's flag equals emptiness of its
collected issues. -/
theorem ruleFold_ok (rs : List RuleResult) (h : ∀ r ∈ rs, RuleOK r) :
    (ruleFold rs).1 = (ruleFold rs).2.isEmpty :=
  ruleFold_go rs h (true, []) rfl

/-- Each of the four text-only checks yields a well-formed rule result. -/
theorem checks_ok (c : Contribution) (ctx : String) :
    RuleOK (check_completeness c ctx) ∧ RuleOK (check_coherence c ctx) ∧
    RuleOK (check_relevance c ctx) ∧ RuleOK (check_consistency c ctx) :=
  ⟨ruleResult_ok _, ruleResult_ok _, ruleResult_ok _, ruleResult_ok _⟩

/-- The text-only validator's flag equals emptiness of its issue list. -/
theorem validate_valid_eq (c : Contribution) (ctx : String) :
    (validate c ctx).valid = (validate c ctx).issues.isEmpty := by
  have h := ruleFold_ok
    [check_completeness c ctx, check_coherence c ctx,
     check_relevance c ctx, check_consistency c ctx]
    (by
      intro r hr
      simp only [List.mem_cons, List.not_mem_nil, or_false] at hr
      rcases hr with h1 | h1 | h1 | h1 <;> subst h1 <;>
        exact ruleResult_ok _)
  exact h

/-- The quality score is never below `1/2`: the deduction is capped. -/
theorem calculate_quality_score_ge_half (issues : List String) :
    1 / 2 ≤ calculate_quality_score issues := by
  unfold calculate_quality_score
  have h1 : min ((issues.length : ℚ) * 0.1) 0.5 ≤ 0.5 := min_le_right _ _
  have h2 : (1 / 2 : ℚ) ≤ min 1 (1 - min ((issues.length : ℚ) * 0.1) 0.5) := by
    refine le_min (by norm_num) (by linarith)
  exact le_trans h2 (le_max_right _ _)

/-- The quality score is nonnegative. -/
theorem calculate_quality_score_nonneg (issues : List String) :
    0 ≤ calculate_quality_score issues :=
  le_max_left _ _

/-- The quality score is at most one. -/
theorem calculate_quality_score_le_one (issues : List String) :
    calculate_quality_score issues ≤ 1 :=
  max_le (by norm_num) (min_le_left _ _)

/-- The quality score does not increase with the issue count. -/
theorem calculate_quality_score_antitone {i1 i2 : List String}
    (h : i1.length ≤ i2.length) :
    calculate_quality_score i2 ≤ calculate_quality_score i1 := by
  unfold calculate_quality_score
  have hc : ((i1.length : ℚ)) ≤ ((i2.length : ℚ)) := by exact_mod_cast h
  have hm : min ((i1.length : ℚ) * 0.1) 0.5 ≤ min ((i2.length : ℚ) * 0.1) 0.5 :=
    min_le_min (by nlinarith) le_rfl
  exact max_le_max le_rfl (min_le_min le_rfl (by linarith))

/-- The quality score is exactly one iff there are no issues. -/
theorem calculate_quality_score_eq_one_iff (issues : List String) :
    calculate_quality_score issues = 1 ↔ issues = [] := by
  constructor
  · intro h
    cases issues with
    | nil => rfl
    | cons a t =>
        exfalso
        have hn : (1 : ℚ) ≤ ((a :: t).length : ℚ) := by
          have : 1 ≤ (a :: t).length := by simp
          exact_mod_cast this
        have hm : (1 / 10 : ℚ) ≤ min (((a :: t).length : ℚ) * 0.1) 0.5 :=
          le_min (by nlinarith) (by norm_num)
        have hle : calculate_quality_score (a :: t) ≤ 9 / 10 := by
          unfold calculate_quality_score
          exact max_le (by norm_num)
            (le_trans (min_le_right _ _) (by linarith))
        rw [h] at hle
        norm_num at hle
  · intro h
    subst h
    norm_num [calculate_quality_score]

end AiMergeSystem

namespace MultiModal

open AiMergeSystem (RuleOK RuleResult ruleResult ruleResult_ok ruleFold_ok
  calculate_quality_score)

/-- The three text checks of the multi-modal validator are well-formed. -/
theorem mm_text_checks_ok (c : MultiModalContribution) (ctx : String) :
    RuleOK (check_text_completeness c ctx) ∧
    RuleOK (check_text_coherence c ctx) ∧
    RuleOK (check_text_relevance c ctx) := by
  refine ⟨?_, ?_, ?_⟩ <;>
    (first
      | (unfold check_text_completeness; split <;> exact ruleResult_ok _)
      | (unfold check_text_coherence; split <;> exact ruleResult_ok _)
      | (unfold check_text_relevance; split <;> exact ruleResult_ok _))

/-- The image validity check is well-formed. -/
theorem check_image_validity_ok (fs : FileSystem)
    (c : MultiModalContribution) (ctx : String) :
    RuleOK (check_image_validity fs c ctx) := by
  unfold check_image_validity
  split
  · exact ruleResult_ok _
  · split <;> exact ruleResult_ok _

/-- The image quality check is well-formed. -/
theorem check_image_quality_ok (fs : FileSystem)
    (c : MultiModalContribution) (ctx : String) :
    RuleOK (check_image_quality fs c ctx) := by
  unfold check_image_quality
  split
  · exact ruleResult_ok _
  · split <;> exact ruleResult_ok _

/-- The audio validity check is well-formed. -/
theorem check_audio_validity_ok (fs : FileSystem)
    (c : MultiModalContribution) (ctx : String) :
    RuleOK (check_audio_validity fs c ctx) := by
  unfold check_audio_validity
  split
  · exact ruleResult_ok _
  · split <;> exact ruleResult_ok _

/-- The audio quality check is well-formed. -/
theorem check_audio_quality_ok (fs : FileSystem)
    (c : MultiModalContribution) (ctx : String) :
    RuleOK (check_audio_quality fs c ctx) := by
  unfold check_audio_quality
  split
  · exact ruleResult_ok _
  · split <;> exact ruleResult_ok _

/-- The video validity check is well-formed. -/
theorem check_video_validity_ok (fs : FileSystem)
    (c : MultiModalContribution) (ctx : String) :
    RuleOK (check_video_validity fs c ctx) := by
  unfold check_video_validity
  split
  · exact ruleResult_ok _
  · split <;> exact ruleResult_ok _

/-- The video quality check is well-formed. -/
theorem check_video_quality_ok (fs : FileSystem)
    (c : MultiModalContribution) (ctx : String) :
    RuleOK (check_video_quality fs c ctx) := by
  unfold check_video_quality
  split
  · exact ruleResult_ok _
  · split <;> exact ruleResult_ok _

/-- Every rule the modality dispatch table can select yields a well-formed
rule result. -/
theorem rules_ok (fs : FileSystem) (m : ModalityType)
    (r : MultiModalContribution → String → RuleResult)
    (hr : r ∈ validationRules fs m) (c : MultiModalContribution)
    (ctx : String) : RuleOK (r c ctx) := by
  cases m
  case multimodal => simp only [validationRules, List.not_mem_nil] at hr
  all_goals
    simp only [validationRules, List.mem_cons, List.not_mem_nil,
      or_false] at hr
  case text =>
    rcases hr with h1 | h1 | h1 <;> subst h1
    · exact (mm_text_checks_ok c ctx).1
    · exact (mm_text_checks_ok c ctx).2.1
    · exact (mm_text_checks_ok c ctx).2.2
  case image =>
    rcases hr with h1 | h1 | h1 <;> subst h1
    · exact check_image_validity_ok fs c ctx
    · exact check_image_quality_ok fs c ctx
    · exact ruleResult_ok _
  case audio =>
    rcases hr with h1 | h1 | h1 <;> subst h1
    · exact check_audio_validity_ok fs c ctx
    · exact check_audio_quality_ok fs c ctx
    · exact ruleResult_ok _
  case video =>
    rcases hr with h1 | h1 | h1 <;> subst h1
    · exact check_video_validity_ok fs c ctx
    · exact check_video_quality_ok fs c ctx
    · exact ruleResult_ok _

/-- The multi-modal validator's flag equals emptiness of its issue list. -/
theorem mm_validate_valid_eq (fs : FileSystem) (c : MultiModalContribution)
    (ctx : String) :
    (validate fs c ctx).valid = (validate fs c ctx).issues.isEmpty := by
  have h := ruleFold_ok ((validationRules fs c.modality).map (fun r => r c ctx))
    (by
      intro r hr
      rcases List.mem_map.mp hr with ⟨rule, hrule, hEq⟩
      subst hEq
      exact rules_ok fs c.modality rule hrule c ctx)
  exact h

end MultiModal

/-- The text-only validator's quality score is the capped-deduction formula
applied to its issue list. -/
theorem validate_quality_eq (c : AiMergeSystem.Contribution) (ctx : String) :
    (AiMergeSystem.validate c ctx).quality_score =
      AiMergeSystem.calculate_quality_score
        ((AiMergeSystem.validate c ctx).issues) :=
  rfl

/-- The multi-modal validator's quality score is the capped-deduction formula
applied to its issue list. -/
theorem mm_validate_quality_eq (fs : MultiModal.FileSystem)
    (c : MultiModal.MultiModalContribution) (ctx : String) :
    (MultiModal.validate fs c ctx).quality_score =
      AiMergeSystem.calculate_quality_score
        ((MultiModal.validate fs c ctx).issues) :=
  rfl

/-- C5: for every validation result of either validator, `quality_score`
equals `max(0, min(1, 1 − min(issue_count * 0.1, 0.5)))` over its issue
list; the score always lies in `[0,1]`, does not increase as the issue
count grows, and the total deduction from `1.0` never exceeds `0.5`. -/
theorem c5_quality_score_formula
    (c : AiMergeSystem.Contribution) (ctx : String)
    (fs : MultiModal.FileSystem) (mc : MultiModal.MultiModalContribution)
    (mctx : String) (i1 i2 : List String) (h : i1.length ≤ i2.length) :
    (AiMergeSystem.validate c ctx).quality_score =
      max 0 (min 1
        (1 - min (((AiMergeSystem.validate c ctx).issues.length : ℚ) * 0.1)
          0.5)) ∧
    (MultiModal.validate fs mc mctx).quality_score =
      max 0 (min 1
        (1 - min (((MultiModal.validate fs mc mctx).issues.length : ℚ) * 0.1)
          0.5)) ∧
    (0 ≤ AiMergeSystem.calculate_quality_score i1 ∧
      AiMergeSystem.calculate_quality_score i1 ≤ 1) ∧
    AiMergeSystem.calculate_quality_score i2 ≤
      AiMergeSystem.calculate_quality_score i1 ∧
    1 - AiMergeSystem.calculate_quality_score i1 ≤ 0.5 := by
  refine ⟨validate_quality_eq c ctx, mm_validate_quality_eq fs mc mctx,
    ⟨AiMergeSystem.calculate_quality_score_nonneg i1,
      AiMergeSystem.calculate_quality_score_le_one i1⟩,
    AiMergeSystem.calculate_quality_score_antitone h, ?_⟩
  have := AiMergeSystem.calculate_quality_score_ge_half i1
  linarith

/-- C5 witness: the formula, bounds, monotonicity and deduction cap at a
concrete validation call and concrete issue lists of lengths 1 and 2. -/
theorem c5_quality_score_formula_witness :
    (["x"].length ≤ ["x", "y"].length) ∧
    ((AiMergeSystem.validate
        (AiMergeSystem.mkContribution "a1" "short" 5 1 "h") "").quality_score =
      max 0 (min 1
        (1 - min (((AiMergeSystem.validate
          (AiMergeSystem.mkContribution "a1" "short" 5 1 "h")
          "").issues.length : ℚ) * 0.1) 0.5)) ∧
     (MultiModal.validate ⟨fun _ => false, fun _ => none⟩
        (MultiModal.mkMMContribution "a1" { text := some "short" }
          MultiModal.ModalityType.text 5 1 "h") "").quality_score =
      max 0 (min 1
        (1 - min (((MultiModal.validate ⟨fun _ => false, fun _ => none⟩
          (MultiModal.mkMMContribution "a1" { text := some "short" }
            MultiModal.ModalityType.text 5 1 "h") "").issues.length : ℚ) *
          0.1) 0.5)) ∧
     (0 ≤ AiMergeSystem.calculate_quality_score ["x"] ∧
       AiMergeSystem.calculate_quality_score ["x"] ≤ 1) ∧
     AiMergeSystem.calculate_quality_score ["x", "y"] ≤
       AiMergeSystem.calculate_quality_score ["x"] ∧
     1 - AiMergeSystem.calculate_quality_score ["x"] ≤ 0.5) :=
  ⟨by decide,
   c5_quality_score_formula
     (AiMergeSystem.mkContribution "a1" "short" 5 1 "h") ""
     ⟨fun _ => false, fun _ => none⟩
     (MultiModal.mkMMContribution "a1" { text := some "short" }
       MultiModal.ModalityType.text 5 1 "h") ""
     ["x"] ["x", "y"] (by decide)⟩

/-- C10: for both validators, a validation result is marked valid exactly
when its issue list is empty, and exactly when its quality score is `1`;
a contribution whose declared modality has no registered checks
(`MULTIMODAL`) is always valid with quality score `1`. -/
theorem c10_valid_iff_no_issues :
    (∀ (c : AiMergeSystem.Contribution) (ctx : String),
      ((AiMergeSystem.validate c ctx).valid = true ↔
        (AiMergeSystem.validate c ctx).issues = []) ∧
      ((AiMergeSystem.validate c ctx).valid = true ↔
        (AiMergeSystem.validate c ctx).quality_score = 1)) ∧
    (∀ (fs : MultiModal.FileSystem) (c : MultiModal.MultiModalContribution)
      (ctx : String),
      ((MultiModal.validate fs c ctx).valid = true ↔
        (MultiModal.validate fs c ctx).issues = []) ∧
      ((MultiModal.validate fs c ctx).valid = true ↔
        (MultiModal.validate fs c ctx).quality_score = 1) ∧
      (c.modality = MultiModal.ModalityType.multimodal →
        (MultiModal.validate fs c ctx).valid = true ∧
        (MultiModal.validate fs c ctx).quality_score = 1)) := by
  constructor
  · intro c ctx
    have h1 : (AiMergeSystem.validate c ctx).valid = true ↔
        (AiMergeSystem.validate c ctx).issues = [] := by
      rw [AiMergeSystem.validate_valid_eq c ctx]
      exact List.isEmpty_iff
    refine ⟨h1, h1.trans ?_⟩
    rw [validate_quality_eq c ctx]
    exact (AiMergeSystem.calculate_quality_score_eq_one_iff _).symm
  · intro fs c ctx
    have h1 : (MultiModal.validate fs c ctx).valid = true ↔
        (MultiModal.validate fs c ctx).issues = [] := by
      rw [MultiModal.mm_validate_valid_eq fs c ctx]
      exact List.isEmpty_iff
    refine ⟨h1, h1.trans ?_, ?_⟩
    · rw [mm_validate_quality_eq fs c ctx]
      exact (AiMergeSystem.calculate_quality_score_eq_one_iff _).symm
    · intro hm
      have hrules : MultiModal.validationRules fs c.modality = [] := by
        rw [hm]
        rfl
      have hval : MultiModal.validate fs c ctx =
          { valid := true, issues := [],
            quality_score := AiMergeSystem.calculate_quality_score [],
            modality := c.modality.value } := by
        unfold MultiModal.validate
        rw [hrules]
        rfl
      rw [hval]
      refine ⟨rfl, ?_⟩
      norm_num [AiMergeSystem.calculate_quality_score]

/-- C10 witness: the equivalences at a concrete modality-`MULTIMODAL`
contribution, whose absence of registered checks makes it valid with
quality `1`. -/
theorem c10_valid_iff_no_issues_witness :
    (MultiModal.validate ⟨fun _ => false, fun _ => none⟩
      (MultiModal.mkMMContribution "a1" { text := some "zz" }
        MultiModal.ModalityType.multimodal 5 1 "h") "").valid = true ∧
    (MultiModal.validate ⟨fun _ => false, fun _ => none⟩
      (MultiModal.mkMMContribution "a1" { text := some "zz" }
        MultiModal.ModalityType.multimodal 5 1 "h") "").quality_score = 1 :=
  (c10_valid_iff_no_issues.2 ⟨fun _ => false, fun _ => none⟩
    (MultiModal.mkMMContribution "a1" { text := some "zz" }
      MultiModal.ModalityType.multimodal 5 1 "h") "").2.2 rfl

namespace AiMergeSystem

/-- On an all-valid input list, the surviving contributions are the whole
list. -/
theorem validatedContribs_all_valid (l : List Contribution) (ctx : String)
    (hval : ∀ c ∈ l, (validate c ctx).valid = true) :
    validatedContribs l ctx = l :=
  List.filter_eq_self.mpr hval

/-- The strategy dispatch of `merge_contributions`. -/
def applyStrategy (strategy : MergeStrategy) (l : List Contribution) :
    String × ℚ :=
  match strategy with
  | .synthesis => synthesize l
  | .consensus => find_consensus l
  | .complementary => combine_complementary l
  | .competitive_eval => competitive_evaluation l

/-- On a nonempty all-valid input list, a merge call packages the selected
strategy's output together with the full validation map. -/
theorem merge_spec_all_valid (l : List Contribution)
    (strategy : MergeStrategy) (ctx : String) (now : ℕ) (hne : l ≠ [])
    (hval : ∀ c ∈ l, (validate c ctx).valid = true) :
    merge_contributions l strategy ctx now =
      { strategy := strategy,
        merged_content := (applyStrategy strategy l).1,
        contributing_agents :=
          PyLib.pySetList (l.map (fun c => c.agent_id)),
        confidence_score := (applyStrategy strategy l).2,
        timestamp := now,
        validation_results := validationMap l ctx } := by
  have hv := validatedContribs_all_valid l ctx hval
  unfold merge_contributions
  rw [hv, if_neg hne]
  cases strategy <;> rfl

/-- The head of the stable descending sort is a maximal-confidence element
of the input. -/
theorem sortedByConfDesc_spec (l : List Contribution) (hne : l ≠ []) :
    ∃ b t, sortedByConfDesc l = b :: t ∧ b ∈ l ∧
      ∀ c ∈ l, c.confidence ≤ b.confidence := by
  induction l with
  | nil => exact absurd rfl hne
  | cons a l ih =>
      rcases eq_or_ne l [] with hl | hl
      · subst hl
        exact ⟨a, [], rfl, List.mem_singleton.mpr rfl,
          by intro c hc; rw [List.mem_singleton.mp hc]⟩
      · rcases ih hl with ⟨b, t, hbt, hbmem, hbmax⟩
        have hfold : sortedByConfDesc (a :: l) =
            insertDesc a (b :: t) := by
          show insertDesc a (sortedByConfDesc l) = _
          rw [hbt]
        by_cases hab : b.confidence ≤ a.confidence
        · refine ⟨a, b :: t, ?_, List.mem_cons_self _ _, ?_⟩
          · rw [hfold]
            unfold insertDesc
            rw [if_pos hab]
          · intro c hc
            rcases List.mem_cons.mp hc with h | h
            · rw [h]
            · exact le_trans (hbmax c h) hab
        · refine ⟨b, insertDesc a t, ?_, List.mem_cons_of_mem _ hbmem, ?_⟩
          · rw [hfold]
            unfold insertDesc
            rw [if_neg hab]
            cases t <;> rfl
          · intro c hc
            rcases List.mem_cons.mp hc with h | h
            · rw [h]; exact le_of_lt (lt_of_not_le hab)
            · exact hbmax c h

end AiMergeSystem

/-- C3: on a nonempty list of valid contributions, strategy
COMPETITIVE_EVAL returns exactly the maximum individual confidence as the
merge confidence, and the merged content is the selected (maximal)
contribution's content prefixed by
`[Selected for highest confidence: ` + that confidence rendered to two
decimals + `] `. -/
theorem c3_competitive_eval (l : List AiMergeSystem.Contribution)
    (ctx : String) (now : ℕ) (hne : l ≠ [])
    (hval : ∀ c ∈ l, (AiMergeSystem.validate c ctx).valid = true) :
    (∀ c ∈ l, c.confidence ≤
      (AiMergeSystem.merge_contributions l
        AiMergeSystem.MergeStrategy.competitive_eval ctx
        now).confidence_score) ∧
    ∃ best ∈ l,
      best.confidence =
        (AiMergeSystem.merge_contributions l
          AiMergeSystem.MergeStrategy.competitive_eval ctx
          now).confidence_score ∧
      (AiMergeSystem.merge_contributions l
          AiMergeSystem.MergeStrategy.competitive_eval ctx
          now).merged_content =
        "[Selected for highest confidence: " ++
          AiMergeSystem.format2 best.confidence ++ "] " ++ best.content := by
  rcases AiMergeSystem.sortedByConfDesc_spec l hne with
    ⟨b, t, hbt, hbmem, hbmax⟩
  have hce : AiMergeSystem.competitive_evaluation l =
      ("[Selected for highest confidence: " ++
        AiMergeSystem.format2 b.confidence ++ "] " ++ b.content,
       b.confidence) := by
    unfold AiMergeSystem.competitive_evaluation
    rw [hbt]
  have hm := AiMergeSystem.merge_spec_all_valid l
    AiMergeSystem.MergeStrategy.competitive_eval ctx now hne hval
  rw [hm]
  constructor
  · intro c hc
    show c.confidence ≤
      (AiMergeSystem.applyStrategy
        AiMergeSystem.MergeStrategy.competitive_eval l).2
    unfold AiMergeSystem.applyStrategy
    rw [hce]
    exact hbmax c hc
  · refine ⟨b, hbmem, ?_, ?_⟩
    · show b.confidence =
        (AiMergeSystem.applyStrategy
          AiMergeSystem.MergeStrategy.competitive_eval l).2
      unfold AiMergeSystem.applyStrategy
      rw [hce]
    · show (AiMergeSystem.applyStrategy
          AiMergeSystem.MergeStrategy.competitive_eval l).1 = _
      unfold AiMergeSystem.applyStrategy
      rw [hce]

/-- The concrete two-contribution input used to witness C3. -/
def c3ExampleList : List AiMergeSystem.Contribution :=
  [AiMergeSystem.mkContribution "a1" "alpha beta gamma" 5 (9 / 10) "h1",
   AiMergeSystem.mkContribution "a2" "delta epsilon zeta" 6 (4 / 5) "h2"]

/-- C3 witness: the competitive-evaluation contract at a concrete
two-agent input with confidences `0.9` and `0.8`. -/
theorem c3_competitive_eval_witness :
    (c3ExampleList ≠ [] ∧
      ∀ c ∈ c3ExampleList,
        (AiMergeSystem.validate c "").valid = true) ∧
    ((∀ c ∈ c3ExampleList, c.confidence ≤
        (AiMergeSystem.merge_contributions c3ExampleList
          AiMergeSystem.MergeStrategy.competitive_eval ""
          7).confidence_score) ∧
      ∃ best ∈ c3ExampleList,
        best.confidence =
          (AiMergeSystem.merge_contributions c3ExampleList
            AiMergeSystem.MergeStrategy.competitive_eval ""
            7).confidence_score ∧
        (AiMergeSystem.merge_contributions c3ExampleList
            AiMergeSystem.MergeStrategy.competitive_eval ""
            7).merged_content =
          "[Selected for highest confidence: " ++
            AiMergeSystem.format2 best.confidence ++ "] " ++ best.content) :=
  ⟨⟨by decide, by decide⟩,
   c3_competitive_eval c3ExampleList "" 7 (by decide) (by decide)⟩

namespace AiMergeSystem

/-- Looking up the key just inserted yields the inserted value. -/
theorem dictLookup_insert_self {α : Type} (m : List (String × α))
    (k : String) (v : α) : dictLookup (dictInsert m k v) k = some v := by
  induction m with
  | nil => simp [dictInsert, dictLookup]
  | cons p rest ih =>
      by_cases hk : p.1 = k
      · cases p
        simp_all [dictInsert, dictLookup]
      · cases p
        simp_all [dictInsert, dictLookup, List.find?]

/-- Lookup on a nonempty dict: the head binding shadows the tail. -/
theorem dictLookup_cons {α : Type} (k0 : String) (v0 : α)
    (rest : List (String × α)) (k' : String) :
    dictLookup ((k0, v0) :: rest) k' =
      if k0 = k' then some v0 else dictLookup rest k' := by
  by_cases h : k0 = k' <;> simp [dictLookup, List.find?, h]

/-- Insertion never removes a bound key. -/
theorem dictLookup_insert_isSome {α : Type} (m : List (String × α))
    (k k' : String) (v : α) (h : (dictLookup m k').isSome) :
    (dictLookup (dictInsert m k v) k').isSome := by
  induction m with
  | nil => simp [dictLookup] at h
  | cons p rest ih =>
      cases p with
      | mk k0 v0 =>
        rw [dictLookup_cons] at h
        by_cases hk : k0 = k
        · subst hk
          have hins : dictInsert ((k0, v0) :: rest) k0 v =
              (k0, v) :: rest := by
            unfold dictInsert
            rw [if_pos rfl]
          rw [hins, dictLookup_cons]
          by_cases hk' : k0 = k'
          · rw [if_pos hk']; rfl
          · rw [if_neg hk']
            rw [if_neg hk'] at h
            exact h
        · have hins : dictInsert ((k0, v0) :: rest) k v =
              (k0, v0) :: dictInsert rest k v := by
            unfold dictInsert
            rw [if_neg hk]
            cases rest <;> rfl
          rw [hins, dictLookup_cons]
          by_cases hk' : k0 = k'
          · rw [if_pos hk']; rfl
          · rw [if_neg hk']
            rw [if_neg hk'] at h
            exact ih h

/-- After folding dict insertions keyed by `key` over a list, every listed
element's key is bound (as is every previously bound key). -/
theorem foldl_dictInsert_isSome {α β : Type} (key : β → String)
    (val : β → α) (l : List β) :
    ∀ (m : List (String × α)) (c : β),
      (c ∈ l ∨ (dictLookup m (key c)).isSome) →
      (dictLookup
        (l.foldl (fun m x => dictInsert m (key x) (val x)) m)
        (key c)).isSome := by
  induction l with
  | nil =>
      intro m c hc
      rcases hc with hc | hc
      · cases hc
      · simpa using hc
  | cons x xs ih =>
      intro m c hc
      simp only [List.foldl_cons]
      refine ih _ c ?_
      rcases hc with hc | hc
      · rcases List.mem_cons.mp hc with h | h
        · subst h
          right
          rw [dictLookup_insert_self]
          rfl
        · exact Or.inl h
      · exact Or.inr (dictLookup_insert_isSome _ _ _ _ hc)

/-- Every input contribution's hash is bound in the accumulated validation
map. -/
theorem validationMap_isSome (l : List Contribution) (ctx : String)
    (c : Contribution) (hc : c ∈ l) :
    (dictLookup (validationMap l ctx) c.hash).isSome :=
  foldl_dictInsert_isSome (α := ValidationResult) (β := Contribution)
    (fun c => c.hash) (fun c => validate c ctx) l [] c (Or.inl hc)

end AiMergeSystem

/-- Every input contribution's hash is bound in the multi-modal validation
map. -/
theorem mm_validationMap_isSome (fs : MultiModal.FileSystem)
    (l : List MultiModal.MultiModalContribution) (ctx : String)
    (c : MultiModal.MultiModalContribution) (hc : c ∈ l) :
    (AiMergeSystem.dictLookup (MultiModal.validationMap fs l ctx)
      c.hash).isSome :=
  AiMergeSystem.foldl_dictInsert_isSome
    (α := MultiModal.MMValidationResult)
    (β := MultiModal.MultiModalContribution) (fun c => c.hash)
    (fun c => MultiModal.validate fs c ctx) l [] c (Or.inl hc)

/-- C4: when no input contribution passes validation (in particular on a
non-empty all-failing list), both engines return the sentinel result:
content "No valid contributions to merge", no contributing agents,
confidence `0`, the full per-hash validation map with an entry for every
input contribution, and — in the multi-modal engine — output modality
TEXT. -/
theorem c4_sentinel_no_valid :
    (∀ (l : List AiMergeSystem.Contribution)
      (strat : AiMergeSystem.MergeStrategy) (ctx : String) (now : ℕ),
      (∀ c ∈ l, (AiMergeSystem.validate c ctx).valid = false) →
      (AiMergeSystem.merge_contributions l strat ctx now).merged_content =
        "No valid contributions to merge" ∧
      (AiMergeSystem.merge_contributions l strat ctx
        now).contributing_agents = [] ∧
      (AiMergeSystem.merge_contributions l strat ctx now).confidence_score =
        0 ∧
      ∀ c ∈ l,
        (AiMergeSystem.dictLookup
          (AiMergeSystem.merge_contributions l strat ctx
            now).validation_results c.hash).isSome) ∧
    (∀ (fs : MultiModal.FileSystem)
      (l : List MultiModal.MultiModalContribution) (strat ctx : String)
      (now : ℕ),
      (∀ c ∈ l, (MultiModal.validate fs c ctx).valid = false) →
      (MultiModal.merge_contributions fs l strat ctx now).merged_content =
        { text := some "No valid contributions to merge" } ∧
      (MultiModal.merge_contributions fs l strat ctx
        now).contributing_agents = [] ∧
      (MultiModal.merge_contributions fs l strat ctx now).confidence_score =
        0 ∧
      (MultiModal.merge_contributions fs l strat ctx now).output_modality =
        MultiModal.ModalityType.text ∧
      ∀ c ∈ l,
        (AiMergeSystem.dictLookup
          (MultiModal.merge_contributions fs l strat ctx
            now).validation_results c.hash).isSome) := by
  constructor
  · intro l strat ctx now hfail
    have hnil : AiMergeSystem.validatedContribs l ctx = [] :=
      List.filter_eq_nil_iff.mpr (by
        intro c hc
        simp [hfail c hc])
    have hm : AiMergeSystem.merge_contributions l strat ctx now =
        { strategy := strat,
          merged_content := "No valid contributions to merge",
          contributing_agents := [],
          confidence_score := 0,
          timestamp := now,
          validation_results := AiMergeSystem.validationMap l ctx } := by
      unfold AiMergeSystem.merge_contributions
      rw [hnil, if_pos rfl]
    rw [hm]
    exact ⟨rfl, rfl, rfl,
      fun c hc => AiMergeSystem.validationMap_isSome l ctx c hc⟩
  · intro fs l strat ctx now hfail
    have hnil : MultiModal.validatedContribs fs l ctx = [] :=
      List.filter_eq_nil_iff.mpr (by
        intro c hc
        simp [hfail c hc])
    have hm : MultiModal.merge_contributions fs l strat ctx now =
        { strategy := strat,
          merged_content := { text := some "No valid contributions to merge" },
          contributing_agents := [],
          confidence_score := 0,
          timestamp := now,
          validation_results := MultiModal.validationMap fs l ctx,
          output_modality := MultiModal.ModalityType.text } := by
      unfold MultiModal.merge_contributions
      rw [hnil, if_pos rfl]
    rw [hm]
    exact ⟨rfl, rfl, rfl, rfl,
      fun c hc => mm_validationMap_isSome fs l ctx c hc⟩

/-- The concrete all-failing input used to witness C4 (the content "Hi"
fails the completeness check in both validators). -/
def c4ExampleList : List AiMergeSystem.Contribution :=
  [AiMergeSystem.mkContribution "a1" "Hi" 5 1 "h1"]

/-- The concrete all-failing multi-modal input used to witness C4. -/
def c4ExampleListMM : List MultiModal.MultiModalContribution :=
  [MultiModal.mkMMContribution "a1" { text := some "Hi" }
    MultiModal.ModalityType.text 5 1 "h1"]

/-- C4 witness: the sentinel fields at concrete non-empty all-failing
inputs of both engines. -/
theorem c4_sentinel_no_valid_witness :
    ((∀ c ∈ c4ExampleList, (AiMergeSystem.validate c "").valid = false) ∧
     (∀ c ∈ c4ExampleListMM,
       (MultiModal.validate ⟨fun _ => false, fun _ => none⟩ c "").valid =
         false)) ∧
    ((AiMergeSystem.merge_contributions c4ExampleList
        AiMergeSystem.MergeStrategy.synthesis "" 7).merged_content =
      "No valid contributions to merge" ∧
     (AiMergeSystem.merge_contributions c4ExampleList
        AiMergeSystem.MergeStrategy.synthesis "" 7).contributing_agents =
       [] ∧
     (AiMergeSystem.merge_contributions c4ExampleList
        AiMergeSystem.MergeStrategy.synthesis "" 7).confidence_score = 0 ∧
     ∀ c ∈ c4ExampleList,
       (AiMergeSystem.dictLookup
         (AiMergeSystem.merge_contributions c4ExampleList
           AiMergeSystem.MergeStrategy.synthesis ""
           7).validation_results c.hash).isSome) ∧
    ((MultiModal.merge_contributions ⟨fun _ => false, fun _ => none⟩
        c4ExampleListMM "cross_modal_synthesis" "" 7).merged_content =
      { text := some "No valid contributions to merge" } ∧
     (MultiModal.merge_contributions ⟨fun _ => false, fun _ => none⟩
        c4ExampleListMM "cross_modal_synthesis" "" 7).output_modality =
       MultiModal.ModalityType.text) := by
  have h1 := c4_sentinel_no_valid.1 c4ExampleList
    AiMergeSystem.MergeStrategy.synthesis "" 7 (by decide)
  have h2 := c4_sentinel_no_valid.2 ⟨fun _ => false, fun _ => none⟩
    c4ExampleListMM "cross_modal_synthesis" "" 7 (by decide)
  exact ⟨⟨by decide, by decide⟩, ⟨h1.1, h1.2.1, h1.2.2.1, h1.2.2.2⟩,
    ⟨h2.1, h2.2.2.2.1⟩⟩

/-- C6: whenever at least one contribution survives validation, the merge
result's output modality is resolved from the surviving contributions'
declared modalities by the fixed precedence VIDEO > AUDIO > IMAGE > TEXT,
with TEXT as the default when no media tier is present. -/
theorem c6_output_modality_precedence (fs : MultiModal.FileSystem)
    (l : List MultiModal.MultiModalContribution) (strat ctx : String)
    (now : ℕ)
    (h : ∃ c ∈ l, (MultiModal.validate fs c ctx).valid = true) :
    ((MultiModal.merge_contributions fs l strat ctx now).output_modality =
        MultiModal.ModalityType.video ↔
      MultiModal.ModalityType.video ∈
        (MultiModal.validatedContribs fs l ctx).map
          (fun c => c.modality)) ∧
    ((MultiModal.merge_contributions fs l strat ctx now).output_modality =
        MultiModal.ModalityType.audio ↔
      (MultiModal.ModalityType.audio ∈
        (MultiModal.validatedContribs fs l ctx).map
          (fun c => c.modality) ∧
       MultiModal.ModalityType.video ∉
        (MultiModal.validatedContribs fs l ctx).map
          (fun c => c.modality))) ∧
    ((MultiModal.merge_contributions fs l strat ctx now).output_modality =
        MultiModal.ModalityType.image ↔
      (MultiModal.ModalityType.image ∈
        (MultiModal.validatedContribs fs l ctx).map
          (fun c => c.modality) ∧
       MultiModal.ModalityType.video ∉
        (MultiModal.validatedContribs fs l ctx).map
          (fun c => c.modality) ∧
       MultiModal.ModalityType.audio ∉
        (MultiModal.validatedContribs fs l ctx).map
          (fun c => c.modality))) ∧
    ((MultiModal.merge_contributions fs l strat ctx now).output_modality =
        MultiModal.ModalityType.text ↔
      (MultiModal.ModalityType.video ∉
        (MultiModal.validatedContribs fs l ctx).map
          (fun c => c.modality) ∧
       MultiModal.ModalityType.audio ∉
        (MultiModal.validatedContribs fs l ctx).map
          (fun c => c.modality) ∧
       MultiModal.ModalityType.image ∉
        (MultiModal.validatedContribs fs l ctx).map
          (fun c => c.modality))) := by
  have hne : MultiModal.validatedContribs fs l ctx ≠ [] := by
    rcases h with ⟨c, hc, hv⟩
    intro hnil
    have hmem : c ∈ MultiModal.validatedContribs fs l ctx :=
      List.mem_filter.mpr ⟨hc, hv⟩
    rw [hnil] at hmem
    cases hmem
  have hout : (MultiModal.merge_contributions fs l strat ctx
      now).output_modality =
      MultiModal.resolveOutputModality
        ((MultiModal.validatedContribs fs l ctx).map
          (fun c => c.modality)) := by
    unfold MultiModal.merge_contributions
    rw [if_neg hne]
  rw [hout]
  generalize ((MultiModal.validatedContribs fs l ctx).map
    (fun c => c.modality)) = mods
  by_cases hv : MultiModal.ModalityType.video ∈ mods <;>
    by_cases ha : MultiModal.ModalityType.audio ∈ mods <;>
    by_cases hi : MultiModal.ModalityType.image ∈ mods <;>
    simp [MultiModal.resolveOutputModality, hv, ha, hi]

/-- The file system for the C6 scenario: one valid 2 KiB PNG. -/
def c6Fs : MultiModal.FileSystem :=
  ⟨fun p => p = "diagram.png",
   fun p => if p = "diagram.png" then some 2048 else none⟩

/-- The C6 scenario input: a TEXT contribution submitted first, then an
IMAGE contribution. -/
def c6List : List MultiModal.MultiModalContribution :=
  [MultiModal.mkMMContribution "a1" { text := some "hello world texting" }
     MultiModal.ModalityType.text 5 (9 / 10) "h1",
   MultiModal.mkMMContribution "a2" { image_path := some "diagram.png" }
     MultiModal.ModalityType.image 6 (4 / 5) "h2"]

/-- C6 witness: on a set with one TEXT and one IMAGE contribution (text
submitted first), the output modality resolves to IMAGE. -/
theorem c6_output_modality_precedence_witness :
    (∃ c ∈ c6List, (MultiModal.validate c6Fs c "").valid = true) ∧
    (MultiModal.merge_contributions c6Fs c6List "cross_modal_synthesis" ""
      7).output_modality = MultiModal.ModalityType.image :=
  ⟨by decide,
   (c6_output_modality_precedence c6Fs c6List "cross_modal_synthesis" "" 7
      (by decide)).2.2.1.mpr (by decide)⟩

/-- The portion of the multi-modal hash preimage contributed by the text
payload: the first 100 characters when the payload is truthy, nothing
otherwise. -/
def MultiModal.hashTextPart : Option String → String
  | none => ""
  | some t => if t = "" then "" else t.take 100

/-- The multi-modal hash preimage is exactly
`agent_id + modality.value + timestamp + hashTextPart text`. -/
theorem mm_generate_hash_eq (a : String)
    (ct : MultiModal.MultiModalContent) (m : MultiModal.ModalityType)
    (t : ℕ) :
    MultiModal.generate_hash a ct m t =
      Sha256.sha256hex
        (a ++ m.value ++ toString t ++ MultiModal.hashTextPart ct.text) := by
  unfold MultiModal.generate_hash MultiModal.hashTextPart MultiModal.textFalsy
  rcases ct.text with _ | t0
  · simp
  · by_cases h0 : t0 = "" <;> simp [h0]

/-- C2 counterexample: two multi-modal contributions agreeing on the triple
(agent_id, content prefix, timestamp) — here with identical content — but
declaring different modalities receive different hashes, because the
modality tag is part of the digested preimage. -/
theorem c2_hash_not_function_of_triple :
    (MultiModal.mkMMContribution "a" { text := some "hello mm" }
        MultiModal.ModalityType.text 100 1 "").agent_id =
      (MultiModal.mkMMContribution "a" { text := some "hello mm" }
        MultiModal.ModalityType.multimodal 100 1 "").agent_id ∧
    (MultiModal.mkMMContribution "a" { text := some "hello mm" }
        MultiModal.ModalityType.text 100 1 "").content =
      (MultiModal.mkMMContribution "a" { text := some "hello mm" }
        MultiModal.ModalityType.multimodal 100 1 "").content ∧
    (MultiModal.mkMMContribution "a" { text := some "hello mm" }
        MultiModal.ModalityType.text 100 1 "").timestamp =
      (MultiModal.mkMMContribution "a" { text := some "hello mm" }
        MultiModal.ModalityType.multimodal 100 1 "").timestamp ∧
    (MultiModal.mkMMContribution "a" { text := some "hello mm" }
        MultiModal.ModalityType.text 100 1 "").hash ≠
      (MultiModal.mkMMContribution "a" { text := some "hello mm" }
        MultiModal.ModalityType.multimodal 100 1 "").hash := by
  refine ⟨rfl, rfl, rfl, ?_⟩
  decide

/-- C2 (amended): each contribution's hash is filled in at construction
exactly when the supplied hash is falsy, and is a deterministic function of
(agent_id, content, timestamp) for the text-only `Contribution` and of
(agent_id, modality, first-100-characters of a truthy text payload,
timestamp) for `MultiModalContribution`; a non-empty supplied hash is kept
verbatim.  In this pure embedding contributions are immutable values, so no
read path can alter the hash after construction. -/
theorem c2_hash_deterministic :
    (∀ (a c : String) (t : ℕ) (q1 q2 : ℚ),
      (AiMergeSystem.mkContribution a c t q1 "").hash =
        AiMergeSystem.generate_hash a c t ∧
      (AiMergeSystem.mkContribution a c t q1 "").hash =
        (AiMergeSystem.mkContribution a c t q2 "").hash) ∧
    (∀ (a c : String) (t : ℕ) (q : ℚ) (h : String), h ≠ "" →
      (AiMergeSystem.mkContribution a c t q h).hash = h) ∧
    (∀ (a : String) (m : MultiModal.ModalityType) (t : ℕ) (q1 q2 : ℚ)
       (ct ct' : MultiModal.MultiModalContent),
      MultiModal.hashTextPart ct.text =
        MultiModal.hashTextPart ct'.text →
      (MultiModal.mkMMContribution a ct m t q1 "").hash =
        (MultiModal.mkMMContribution a ct' m t q2 "").hash) ∧
    (∀ (a : String) (ct : MultiModal.MultiModalContent)
       (m : MultiModal.ModalityType) (t : ℕ) (q : ℚ) (h : String),
      h ≠ "" → (MultiModal.mkMMContribution a ct m t q h).hash = h) := by
  refine ⟨?_, ?_, ?_, ?_⟩
  · intro a c t q1 q2
    exact ⟨rfl, rfl⟩
  · intro a c t q h hne
    show (if h = "" then AiMergeSystem.generate_hash a c t else h) = h
    rw [if_neg hne]
  · intro a m t q1 q2 ct ct' hpart
    show (if ("" : String) = "" then MultiModal.generate_hash a ct m t
          else "") =
      (if ("" : String) = "" then MultiModal.generate_hash a ct' m t
          else "")
    rw [if_pos rfl, if_pos rfl, mm_generate_hash_eq, mm_generate_hash_eq,
      hpart]
  · intro a ct m t q h hne
    show (if h = "" then MultiModal.generate_hash a ct m t else h) = h
    rw [if_neg hne]

/-- C2 witness: the construction-time hash equations at concrete
contributions, including determinism across differing confidences and
retention of a supplied non-empty hash. -/
theorem c2_hash_deterministic_witness :
    ((AiMergeSystem.mkContribution "ag" "hello plain" 100 (1 / 2) "").hash =
        AiMergeSystem.generate_hash "ag" "hello plain" 100 ∧
      (AiMergeSystem.mkContribution "ag" "hello plain" 100 (1 / 2) "").hash =
        (AiMergeSystem.mkContribution "ag" "hello plain" 100
          (3 / 4) "").hash) ∧
    (("hfix" : String) ≠ "" ∧
      (AiMergeSystem.mkContribution "ag" "hello plain" 100 (1 / 2)
        "hfix").hash = "hfix") ∧
    (MultiModal.hashTextPart (some "hello mm") =
        MultiModal.hashTextPart (some "hello mm") ∧
      (MultiModal.mkMMContribution "a" { text := some "hello mm" }
          MultiModal.ModalityType.text 100 (1 / 2) "").hash =
        (MultiModal.mkMMContribution "a" { text := some "hello mm" }
          MultiModal.ModalityType.text 100 (3 / 4) "").hash) :=
  ⟨c2_hash_deterministic.1 "ag" "hello plain" 100 (1 / 2) (3 / 4),
   ⟨by decide,
    c2_hash_deterministic.2.1 "ag" "hello plain" 100 (1 / 2) "hfix"
      (by decide)⟩,
   ⟨rfl,
    c2_hash_deterministic.2.2.1 "a" MultiModal.ModalityType.text 100
      (1 / 2) (3 / 4) { text := some "hello mm" } { text := some "hello mm" }
      rfl⟩⟩

namespace AiMergeSystem

/-- A rule fails exactly when it reports at least one issue. -/
theorem ruleResult_valid_false_iff (issues : List String) :
    (ruleResult issues).valid = false ↔ issues ≠ [] := by
  cases issues <;> simp [ruleResult]

end AiMergeSystem

/-- C8 counterexample: on a TEXT contribution with a nonempty context of
length at most 10, the multi-modal text relevance check evaluates the word
intersection and fails, whereas the text-only relevance check skips
evaluation and passes — so the two checks do not behave identically. -/
theorem c8_relevance_checks_differ :
    ("zq ab" : String).length ≤ 10 ∧
    (AiMergeSystem.check_relevance
      (AiMergeSystem.mkContribution "a1" "hello world this is fine" 5 1 "h")
      "zq ab").valid = true ∧
    (MultiModal.check_text_relevance
      (MultiModal.mkMMContribution "a1"
        { text := some "hello world this is fine" }
        MultiModal.ModalityType.text 5 1 "h")
      "zq ab").valid = false := by
  decide

/-- C8 (amended): for TEXT contributions, the multi-modal relevance check
runs whenever the context is nonempty — it has no `length > 10` threshold —
and fails exactly when the first-20-lowercase-word intersection has fewer
than 2 elements; the text-only check additionally requires context length
strictly greater than 10 before evaluating the same intersection rule. -/
theorem c8_text_relevance_characterization (a t : String) (ts : ℕ) (q : ℚ)
    (h : String) (ct : MultiModal.MultiModalContent) (ctx : String) :
    ((MultiModal.check_text_relevance
        ⟨a, ct, MultiModal.ModalityType.text, ts, q, h⟩ ctx).valid = false ↔
      (MultiModal.textFalsy ct.text = false ∧ ctx ≠ "" ∧
        PyLib.interCard ((PyLib.pySplit (PyLib.pyLower ctx)).take 20)
          ((PyLib.pySplit (PyLib.pyLower (ct.text.getD ""))).take 20) < 2)) ∧
    ((AiMergeSystem.check_relevance ⟨a, t, ts, q, h⟩ ctx).valid = false ↔
      (10 < ctx.length ∧
        PyLib.interCard ((PyLib.pySplit (PyLib.pyLower ctx)).take 20)
          ((PyLib.pySplit (PyLib.pyLower t)).take 20) < 2)) := by
  constructor
  · show ((MultiModal.check_text_relevance _ ctx).valid = false ↔ _)
    unfold MultiModal.check_text_relevance
    split
    case isTrue hcond =>
      simp only [AiMergeSystem.ruleResult, List.isEmpty_nil]
      constructor
      · intro hfalse
        cases hfalse
      · intro hrhs
        rcases hcond with hmod | hfal | hctx
        · exact absurd rfl hmod
        · rw [hrhs.1] at hfal
          cases hfal
        · exact absurd hctx hrhs.2.1
    case isFalse hcond =>
      push_neg at hcond
      rw [AiMergeSystem.ruleResult_valid_false_iff]
      have hfal : MultiModal.textFalsy ct.text = false :=
        Bool.eq_false_iff.mpr hcond.2.1
      have hctx : ctx ≠ "" := hcond.2.2
      change (if PyLib.interCard
          ((PyLib.pySplit (PyLib.pyLower ctx)).take 20)
          ((PyLib.pySplit (PyLib.pyLower (ct.text.getD ""))).take 20) < 2
        then ["Text contribution appears unrelated to context"]
        else []) ≠ [] ↔ _
      by_cases hint : PyLib.interCard
          ((PyLib.pySplit (PyLib.pyLower ctx)).take 20)
          ((PyLib.pySplit (PyLib.pyLower (ct.text.getD ""))).take 20) < 2
      · rw [if_pos hint]
        simp [hfal, hctx, hint]
      · rw [if_neg hint]
        simp [hfal, hctx, hint]
  · show ((AiMergeSystem.check_relevance _ ctx).valid = false ↔ _)
    unfold AiMergeSystem.check_relevance
    rw [AiMergeSystem.ruleResult_valid_false_iff]
    by_cases hlong : 10 < ctx.length
    · have hne : ctx ≠ "" := by
        intro hnil
        rw [hnil] at hlong
        simp at hlong
      change (if ctx ≠ "" ∧ 10 < ctx.length then
          if PyLib.interCard
              ((PyLib.pySplit (PyLib.pyLower ctx)).take 20)
              ((PyLib.pySplit (PyLib.pyLower t)).take 20) < 2
          then ["Contribution appears unrelated to context"]
          else []
        else []) ≠ [] ↔ _
      rw [if_pos ⟨hne, hlong⟩]
      by_cases hint : PyLib.interCard
          ((PyLib.pySplit (PyLib.pyLower ctx)).take 20)
          ((PyLib.pySplit (PyLib.pyLower t)).take 20) < 2
      · rw [if_pos hint]
        simp [hlong, hint]
      · rw [if_neg hint]
        simp [hlong, hint]
    · change (if ctx ≠ "" ∧ 10 < ctx.length then
          if PyLib.interCard
              ((PyLib.pySplit (PyLib.pyLower ctx)).take 20)
              ((PyLib.pySplit (PyLib.pyLower t)).take 20) < 2
          then ["Contribution appears unrelated to context"]
          else []
        else []) ≠ [] ↔ _
      rw [if_neg (by
        intro hcond
        exact hlong hcond.2)]
      simp [hlong]

namespace PyLib

/-- The substring searcher returns the least occurrence index at or after
its base offset, and `none` exactly when no occurrence exists. -/
theorem findIdxGo_spec (pat : List Char) :
    ∀ (l : List Char) (base : ℕ),
      (∀ j, findIdxGo pat l base = some j →
        ∃ d, j = base + d ∧ pat.isPrefixOf (l.drop d) = true ∧
          ∀ e < d, pat.isPrefixOf (l.drop e) = false) ∧
      (findIdxGo pat l base = none →
        ∀ d, pat.isPrefixOf (l.drop d) = false) := by
  intro l
  induction l with
  | nil =>
      intro base
      constructor
      · intro j hj
        unfold findIdxGo at hj
        split at hj
        case isTrue hp =>
          cases hj
          exact ⟨0, by omega, by simpa using hp, fun e he => by cases he⟩
        case isFalse hp =>
          cases hj
      · intro hnone d
        unfold findIdxGo at hnone
        split at hnone
        case isTrue hp => cases hnone
        case isFalse hp =>
          simp only [List.drop_nil]
          exact Bool.eq_false_iff.mpr hp
  | cons c rest ih =>
      intro base
      constructor
      · intro j hj
        unfold findIdxGo at hj
        split at hj
        case isTrue hp =>
          cases hj
          exact ⟨0, by omega, by simpa using hp, fun e he => by cases he⟩
        case isFalse hp =>
          rcases (ih (base + 1)).1 j hj with ⟨d, hjd, hpre, hmin⟩
          refine ⟨d + 1, by omega, ?_, ?_⟩
          · simpa using hpre
          · intro e he
            cases e with
            | zero =>
                simpa using Bool.eq_false_iff.mpr hp
            | succ e' =>
                have he' : e' < d := by omega
                simpa using hmin e' he'
      · intro hnone d
        unfold findIdxGo at hnone
        split at hnone
        case isTrue hp => cases hnone
        case isFalse hp =>
          cases d with
          | zero => simpa using Bool.eq_false_iff.mpr hp
          | succ d' =>
              have := (ih (base + 1)).2 hnone d'
              simpa using this

/-- `pat` first occurs in `s` exactly at position `i`. -/
def FirstOccAt (s pat : String) (i : ℕ) : Prop :=
  occursAt s.data pat.data i = true ∧
    ∀ k < i, occursAt s.data pat.data k = false

/-- The first occurrence position is unique. -/
theorem firstOccAt_unique {s pat : String} {i j : ℕ}
    (hi : FirstOccAt s pat i) (hj : FirstOccAt s pat j) : i = j := by
  rcases lt_trichotomy i j with h | h | h
  · have := hj.2 i h
    rw [hi.1] at this
    cases this
  · exact h
  · have := hi.2 j h
    rw [hj.1] at this
    cases this

/-- `findIdx` computes exactly the first occurrence position. -/
theorem findIdx_eq_some_iff (s pat : String) (i : ℕ) :
    findIdx s pat = some i ↔ FirstOccAt s pat i := by
  constructor
  · intro h
    rcases (findIdxGo_spec pat.data s.data 0).1 i h with ⟨d, hd, hpre, hmin⟩
    have hdi : i = d := by omega
    subst hdi
    exact ⟨hpre, fun k hk => hmin k hk⟩
  · intro hf
    rcases hcase : findIdx s pat with _ | i'
    · have h2 := (findIdxGo_spec pat.data s.data 0).2 hcase i
      have h1 : pat.data.isPrefixOf (s.data.drop i) = true := hf.1
      rw [h1] at h2
      cases h2
    · rcases (findIdxGo_spec pat.data s.data 0).1 i' hcase with
        ⟨d, hd, hpre, hmin⟩
      have hdi : i' = d := by omega
      subst hdi
      have : i' = i := firstOccAt_unique ⟨hpre, fun k hk => hmin k hk⟩ hf
      rw [this]

end PyLib

namespace AiMergeSystem

/-- A single-issue rule fails exactly when its flag condition holds. -/
theorem singleIssue_valid_false_iff (P : Prop) [Decidable P]
    (msg : String) :
    (ruleResult (if P then [msg] else [])).valid = false ↔ P := by
  by_cases hp : P <;> simp [ruleResult, hp]

end AiMergeSystem

/-- The C9 counterexample content: the first `"no"` is at position 0, the
first `"yes"` at position 124 (distance 124 ≥ 100), yet the trailing
`"yes no"` pair provides occurrences only 4 positions apart. -/
def c9Content : String :=
  "no " ++ String.mk (List.replicate 120 'a') ++ " yes no"

/-- The claim's reading of the consistency heuristic: some occurrence of
`"yes"` and some occurrence of `"no"` lie within 100 positions of each
other. -/
def someCloseOccurrence (s : String) : Bool :=
  (List.range (s.data.length + 1)).any (fun i =>
    PyLib.occursAt s.data "yes".data i &&
    (List.range (s.data.length + 1)).any (fun j =>
      PyLib.occursAt s.data "no".data j &&
      decide ((((i : ℤ) - j).natAbs) < 100)))

/-- C9 counterexample: a content on which close `"yes"`/`"no"` occurrences
exist (so the claim says the check fails), yet the check passes, because
the source only compares the *first* occurrence of each word. -/
theorem c9_consistency_counterexample :
    (AiMergeSystem.check_consistency
      (AiMergeSystem.mkContribution "a1" c9Content 5 1 "h") "").valid =
      true ∧
    someCloseOccurrence (PyLib.pyLower c9Content) = true := by
  decide

/-- C9 (amended): the consistency check fails iff the lowercase content
contains both `"yes"` and `"no"` and their *first* occurrences lie fewer
than 100 character positions apart. -/
theorem c9_consistency_first_occurrences (a content : String) (ts : ℕ)
    (q : ℚ) (h ctx : String) :
    ((AiMergeSystem.check_consistency ⟨a, content, ts, q, h⟩ ctx).valid =
      false) ↔
    ∃ i j : ℕ,
      PyLib.FirstOccAt (PyLib.pyLower content) "yes" i ∧
      PyLib.FirstOccAt (PyLib.pyLower content) "no" j ∧
      ((i : ℤ) - j).natAbs < 100 := by
  have hchar := AiMergeSystem.singleIssue_valid_false_iff
    (PyLib.pyContains (PyLib.pyLower content) "yes" ∧
     PyLib.pyContains (PyLib.pyLower content) "no" ∧
     (PyLib.pyFind (PyLib.pyLower content) "yes" -
       PyLib.pyFind (PyLib.pyLower content) "no").natAbs < 100)
    "Potential contradiction detected"
  rw [show (AiMergeSystem.check_consistency ⟨a, content, ts, q, h⟩
      ctx).valid =
    (AiMergeSystem.ruleResult
      (if PyLib.pyContains (PyLib.pyLower content) "yes" ∧
          PyLib.pyContains (PyLib.pyLower content) "no" ∧
          (PyLib.pyFind (PyLib.pyLower content) "yes" -
            PyLib.pyFind (PyLib.pyLower content) "no").natAbs < 100 then
        ["Potential contradiction detected"]
      else [])).valid from rfl]
  rw [hchar]
  constructor
  · rintro ⟨hy, hn, hd⟩
    rcases Option.isSome_iff_exists.mp hy with ⟨iy, hiy⟩
    rcases Option.isSome_iff_exists.mp hn with ⟨jn, hjn⟩
    refine ⟨iy, jn, (PyLib.findIdx_eq_some_iff _ _ _).mp hiy,
      (PyLib.findIdx_eq_some_iff _ _ _).mp hjn, ?_⟩
    unfold PyLib.pyFind at hd
    rw [hiy, hjn] at hd
    exact hd
  · rintro ⟨i, j, fi, fj, hd⟩
    have hiy : PyLib.findIdx (PyLib.pyLower content) "yes" = some i :=
      (PyLib.findIdx_eq_some_iff _ _ _).mpr fi
    have hjn : PyLib.findIdx (PyLib.pyLower content) "no" = some j :=
      (PyLib.findIdx_eq_some_iff _ _ _).mpr fj
    refine ⟨?_, ?_, ?_⟩
    · unfold PyLib.pyContains
      rw [hiy]
      rfl
    · unfold PyLib.pyContains
      rw [hjn]
      rfl
    · unfold PyLib.pyFind
      rw [hiy, hjn]
      exact hd

namespace PyLib

/-- Membership in the running distinct-element fold. -/
theorem pySetList_go_mem {α : Type} [DecidableEq α] (l : List α) :
    ∀ (acc : List α) (a : α),
      a ∈ l.foldl (fun acc a => if a ∈ acc then acc else acc ++ [a]) acc ↔
        a ∈ acc ∨ a ∈ l := by
  induction l with
  | nil => intro acc a; simp
  | cons x xs ih =>
      intro acc a
      simp only [List.foldl_cons]
      rw [ih]
      by_cases hx : x ∈ acc
      · rw [if_pos hx]
        constructor
        · rintro (h | h)
          · exact Or.inl h
          · exact Or.inr (List.mem_cons_of_mem _ h)
        · rintro (h | h)
          · exact Or.inl h
          · rcases List.mem_cons.mp h with h | h
            · exact Or.inl (h ▸ hx)
            · exact Or.inr h
      · rw [if_neg hx]
        simp only [List.mem_append, List.mem_singleton, List.mem_cons]
        tauto

/-- `pySetList` has the same members as its input. -/
theorem mem_pySetList {α : Type} [DecidableEq α] (l : List α) (a : α) :
    a ∈ pySetList l ↔ a ∈ l := by
  unfold pySetList
  rw [pySetList_go_mem]
  simp

/-- The running distinct-element fold preserves freedom from duplicates. -/
theorem pySetList_go_nodup {α : Type} [DecidableEq α] (l : List α) :
    ∀ (acc : List α), acc.Nodup →
      (l.foldl (fun acc a => if a ∈ acc then acc else acc ++ [a])
        acc).Nodup := by
  induction l with
  | nil => intro acc h; simpa using h
  | cons x xs ih =>
      intro acc h
      simp only [List.foldl_cons]
      apply ih
      by_cases hx : x ∈ acc
      · rw [if_pos hx]; exact h
      · rw [if_neg hx]
        simp [List.nodup_append, h, hx]

/-- `pySetList` contains no duplicates. -/
theorem pySetList_nodup {α : Type} [DecidableEq α] (l : List α) :
    (pySetList l).Nodup :=
  pySetList_go_nodup l [] List.nodup_nil

/-- Appending one element to the input performs one step of the
distinct-element fold. -/
theorem pySetList_append_singleton {α : Type} [DecidableEq α] (l : List α)
    (x : α) :
    pySetList (l ++ [x]) =
      if x ∈ pySetList l then pySetList l else pySetList l ++ [x] := by
  unfold pySetList
  rw [List.foldl_append]
  rfl

end PyLib

namespace AiMergeSystem

/-- `groupInsert` on a duplicate-free association list built from keys
`ks`: an existing key has its group extended in place, a new key is
appended at the end. -/
theorem groupInsert_map {κ : Type} [DecidableEq κ] {α : Type}
    (ks : List κ) (g : κ → List α) (a : κ) (s : α) (hnd : ks.Nodup) :
    groupInsert (ks.map (fun k => (k, g k))) a s =
      if a ∈ ks then
        ks.map (fun k => (k, if k = a then g k ++ [s] else g k))
      else (ks.map (fun k => (k, g k))) ++ [(a, [s])] := by
  induction ks with
  | nil => simp [groupInsert]
  | cons k ks ih =>
      have hstep : groupInsert ((k :: ks).map (fun k => (k, g k))) a s =
          (if k = a then (k, g k ++ [s]) :: ks.map (fun k => (k, g k))
           else (k, g k) :: groupInsert (ks.map (fun k => (k, g k))) a s) := by
        rw [List.map_cons]
        rfl
      rw [hstep]
      by_cases hka : k = a
      · subst hka
        rw [if_pos rfl, if_pos (List.mem_cons_self _ _), List.map_cons,
          if_pos rfl]
        have hknotin : k ∉ ks := (List.nodup_cons.mp hnd).1
        congr 1
        apply List.map_congr_left
        intro k' hk'
        have hne : k' ≠ k := by
          intro hEq
          exact hknotin (hEq ▸ hk')
        rw [if_neg hne]
      · rw [if_neg hka, ih (List.nodup_cons.mp hnd).2]
        by_cases ha : a ∈ ks
        · rw [if_pos ha, if_pos (List.mem_cons_of_mem _ ha), List.map_cons,
            if_neg hka]
        · rw [if_neg ha, if_neg (by
            intro hmem
            rcases List.mem_cons.mp hmem with h | h
            · exact hka h.symm
            · exact ha h), List.map_cons, List.cons_append]

/-- The claim-side description of the agent grouping: the distinct agents
in first-appearance order, each with its contributions' contents in
submission order. -/
def specAgentGroups (m : List Contribution) : List (String × List String) :=
  (PyLib.pySetList (m.map (fun c => c.agent_id))).map
    (fun a => (a, (m.filter (fun c => c.agent_id = a)).map
      (fun c => c.content)))

/-- One grouping step agrees with the claim-side description. -/
theorem groupInsert_specAgentGroups (m : List Contribution)
    (c : Contribution) :
    groupInsert (specAgentGroups m) c.agent_id c.content =
      specAgentGroups (m ++ [c]) := by
  have hg' : ∀ a : String,
      ((m ++ [c]).filter (fun x => x.agent_id = a)).map
        (fun x => x.content) =
      (m.filter (fun x => x.agent_id = a)).map (fun x => x.content) ++
        (if c.agent_id = a then [c.content] else []) := by
    intro a
    rw [List.filter_append, List.map_append]
    congr 1
    by_cases h : c.agent_id = a <;> simp [h]
  unfold specAgentGroups
  rw [groupInsert_map _ _ _ _ (PyLib.pySetList_nodup _)]
  rw [List.map_append, List.map_singleton, PyLib.pySetList_append_singleton]
  by_cases hmem : c.agent_id ∈ PyLib.pySetList (m.map (fun x => x.agent_id))
  · rw [if_pos hmem, if_pos hmem]
    apply List.map_congr_left
    intro k hk
    rw [hg' k]
    by_cases hkc : k = c.agent_id
    · rw [if_pos hkc, if_pos hkc.symm]
    · rw [if_neg hkc, if_neg (fun h => hkc h.symm)]
      rw [List.append_nil]
  · rw [if_neg hmem, if_neg hmem]
    rw [List.map_append, List.map_singleton]
    congr 1
    · apply List.map_congr_left
      intro k hk
      rw [hg' k]
      have hkc : c.agent_id ≠ k := by
        intro hEq
        exact hmem (hEq ▸ hk)
      rw [if_neg hkc, List.append_nil]
    · rw [hg' c.agent_id, if_pos rfl]
      have hfil : m.filter (fun x => x.agent_id = c.agent_id) = [] := by
        apply List.filter_eq_nil_iff.mpr
        intro x hx
        simp only [decide_eq_true_eq]
        intro hEq
        apply hmem
        rw [PyLib.mem_pySetList]
        exact hEq ▸ List.mem_map_of_mem (fun c => c.agent_id) hx
      rw [hfil]
      rfl

/-- The grouping fold computes the claim-side description, relative to any
already-grouped prefix. -/
theorem agentGroups_go_eq (l : List Contribution) :
    ∀ pre : List Contribution,
      l.foldl (fun m c => groupInsert m c.agent_id c.content)
        (specAgentGroups pre) = specAgentGroups (pre ++ l) := by
  induction l with
  | nil => intro pre; simp
  | cons c l ih =>
      intro pre
      simp only [List.foldl_cons]
      rw [groupInsert_specAgentGroups pre c, ih (pre ++ [c])]
      simp

/-- The source's agent-grouping loop equals the claim-side description. -/
theorem agentGroups_eq (l : List Contribution) :
    agentGroups l = specAgentGroups l :=
  agentGroups_go_eq l []

end AiMergeSystem

/-- C7 counterexample: a valid single-agent merge produces the block
`[a1 Perspective]: …` — the bracket closes after the word "Perspective" —
and does not begin with the claimed prefix `[a1] Perspective: `. -/
theorem c7_synthesis_prefix_counterexample :
    (AiMergeSystem.validate
      (AiMergeSystem.mkContribution "a1" "hello beta gamma" 5 1 "h")
      "").valid = true ∧
    (AiMergeSystem.merge_contributions
      [AiMergeSystem.mkContribution "a1" "hello beta gamma" 5 1 "h"]
      AiMergeSystem.MergeStrategy.synthesis "" 0).merged_content =
      "[a1 Perspective]: hello beta gamma" ∧
    PyLib.pyStartsWith
      (AiMergeSystem.merge_contributions
        [AiMergeSystem.mkContribution "a1" "hello beta gamma" 5 1 "h"]
        AiMergeSystem.MergeStrategy.synthesis "" 0).merged_content
      "[a1] Perspective: " = false := by
  decide

/-- C7 (amended): on a nonempty list of valid contributions, SYNTHESIS
builds one block per distinct agent (in first-appearance order) of the form
`[<agent> Perspective]: ` followed by at most that agent's first two
contents joined by `"; "`, joins the blocks with a blank line, and returns
confidence `min(avg_confidence × (1 + min(distinct_agents/5, 1)), 1)`. -/
theorem c7_synthesis_structure (l : List AiMergeSystem.Contribution)
    (ctx : String) (now : ℕ) (hne : l ≠ [])
    (hval : ∀ c ∈ l, (AiMergeSystem.validate c ctx).valid = true) :
    (AiMergeSystem.merge_contributions l
      AiMergeSystem.MergeStrategy.synthesis ctx now).merged_content =
      String.intercalate "\n\n"
        ((PyLib.pySetList (l.map (fun c => c.agent_id))).map
          (fun a => "[" ++ a ++ " Perspective]: " ++
            String.intercalate "; "
              (((l.filter (fun c => c.agent_id = a)).map
                (fun c => c.content)).take 2))) ∧
    (AiMergeSystem.merge_contributions l
      AiMergeSystem.MergeStrategy.synthesis ctx now).confidence_score =
      min (AiMergeSystem.avgConfidence l *
        (1 + min (((PyLib.pySetList
          (l.map (fun c => c.agent_id))).length : ℚ) / 5) 1)) 1 := by
  rw [AiMergeSystem.merge_spec_all_valid l
    AiMergeSystem.MergeStrategy.synthesis ctx now hne hval]
  have hsynth : AiMergeSystem.applyStrategy
      AiMergeSystem.MergeStrategy.synthesis l = AiMergeSystem.synthesize l :=
    rfl
  constructor
  · show (AiMergeSystem.synthesize l).1 = _
    unfold AiMergeSystem.synthesize
    rw [AiMergeSystem.agentGroups_eq]
    unfold AiMergeSystem.specAgentGroups
    simp only [List.map_map]
    rfl
  · show (AiMergeSystem.synthesize l).2 = _
    unfold AiMergeSystem.synthesize
    rw [AiMergeSystem.agentGroups_eq]
    unfold AiMergeSystem.specAgentGroups
    simp only [List.length_map]

/-- The concrete two-agent, three-contribution input used to witness C7. -/
def c7ExampleList : List AiMergeSystem.Contribution :=
  [AiMergeSystem.mkContribution "a1" "alpha beta gamma" 5 (9 / 10) "h1",
   AiMergeSystem.mkContribution "a2" "delta epsilon zeta" 6 (4 / 5) "h2",
   AiMergeSystem.mkContribution "a1" "eta theta iota" 7 (9 / 10) "h3"]

/-- C7 witness: the amended synthesis structure at a concrete input with
two distinct agents, one of them contributing twice. -/
theorem c7_synthesis_structure_witness :
    (c7ExampleList ≠ [] ∧
      ∀ c ∈ c7ExampleList,
        (AiMergeSystem.validate c "").valid = true) ∧
    ((AiMergeSystem.merge_contributions c7ExampleList
        AiMergeSystem.MergeStrategy.synthesis "" 9).merged_content =
      String.intercalate "\n\n"
        ((PyLib.pySetList (c7ExampleList.map (fun c => c.agent_id))).map
          (fun a => "[" ++ a ++ " Perspective]: " ++
            String.intercalate "; "
              (((c7ExampleList.filter (fun c => c.agent_id = a)).map
                (fun c => c.content)).take 2))) ∧
     (AiMergeSystem.merge_contributions c7ExampleList
        AiMergeSystem.MergeStrategy.synthesis "" 9).confidence_score =
      min (AiMergeSystem.avgConfidence c7ExampleList *
        (1 + min (((PyLib.pySetList
          (c7ExampleList.map (fun c => c.agent_id))).length : ℚ) / 5) 1))
        1) :=
  ⟨⟨by decide, by decide⟩,
   c7_synthesis_structure c7ExampleList "" 9 (by decide) (by decide)⟩

namespace AiMergeSystem

/-- A list of rationals from `[0,1]` sums to a value between `0` and its
length. -/
theorem sum_nonneg_le_length (l : List ℚ)
    (h : ∀ x ∈ l, 0 ≤ x ∧ x ≤ 1) :
    0 ≤ l.sum ∧ l.sum ≤ (l.length : ℚ) := by
  induction l with
  | nil => simp
  | cons x xs ih =>
      have hx := h x (List.mem_cons_self _ _)
      have hxs := ih (fun y hy => h y (List.mem_cons_of_mem _ hy))
      simp only [List.sum_cons, List.length_cons]
      push_cast
      constructor <;> linarith [hx.1, hx.2, hxs.1, hxs.2]

/-- The average confidence of contributions with confidences in `[0,1]`
lies in `[0,1]` (and is `0` on the empty list). -/
theorem avgConfidence_bounds (l : List Contribution)
    (h : ∀ c ∈ l, 0 ≤ c.confidence ∧ c.confidence ≤ 1) :
    0 ≤ avgConfidence l ∧ avgConfidence l ≤ 1 := by
  unfold avgConfidence
  by_cases hl : l = []
  · rw [if_pos hl]
    norm_num
  · rw [if_neg hl]
    have hsum := sum_nonneg_le_length (l.map (fun c => c.confidence)) (by
      intro x hx
      rcases List.mem_map.mp hx with ⟨c, hc, hEq⟩
      exact hEq ▸ h c hc)
    rw [List.length_map] at hsum
    have hpos : (0 : ℚ) < (l.length : ℚ) := by
      have : 0 < l.length := List.length_pos.mpr hl
      exact_mod_cast this
    constructor
    · exact div_nonneg hsum.1 (le_of_lt hpos)
    · rw [div_le_one hpos]
      exact hsum.2

/-- `min(a·(1+d), 1)` lies in `[0,1]` for nonnegative `a` and `d`. -/
theorem clamp_bounds (a d : ℚ) (ha : 0 ≤ a) (hd : 0 ≤ d) :
    0 ≤ min (a * (1 + d)) 1 ∧ min (a * (1 + d)) 1 ≤ 1 :=
  ⟨le_min (mul_nonneg ha (by linarith)) (by norm_num), min_le_right _ _⟩

/-- `a / max(b, 1)` lies in `[0,1]` for naturals `a ≤ b`. -/
theorem ratio_bounds (a b : ℕ) (hab : a ≤ b) :
    0 ≤ (a : ℚ) / max (b : ℚ) 1 ∧ (a : ℚ) / max (b : ℚ) 1 ≤ 1 := by
  have hpos : (0 : ℚ) < max (b : ℚ) 1 :=
    lt_of_lt_of_le one_pos (le_max_right _ _)
  constructor
  · exact div_nonneg (by exact_mod_cast Nat.zero_le a) (le_of_lt hpos)
  · rw [div_le_one hpos]
    exact le_trans (by exact_mod_cast hab) (le_max_left _ _)

/-- The average of two values from `[0,1]` lies in `[0,1]`. -/
theorem half_sum_bounds (r a : ℚ) (hr : 0 ≤ r ∧ r ≤ 1)
    (ha : 0 ≤ a ∧ a ≤ 1) : 0 ≤ (r + a) / 2 ∧ (r + a) / 2 ≤ 1 := by
  constructor <;> [linarith [hr.1, ha.1]; linarith [hr.2, ha.2]]

/-- SYNTHESIS confidence lies in `[0,1]`. -/
theorem synthesize_conf_bounds (l : List Contribution)
    (h : ∀ c ∈ l, 0 ≤ c.confidence ∧ c.confidence ≤ 1) :
    0 ≤ (synthesize l).2 ∧ (synthesize l).2 ≤ 1 := by
  show 0 ≤ min (avgConfidence l *
      (1 + min (((agentGroups l).length : ℚ) / 5) 1)) 1 ∧ _ ≤ 1
  exact clamp_bounds _ _ (avgConfidence_bounds l h).1
    (le_min (div_nonneg (by exact_mod_cast Nat.zero_le _) (by norm_num))
      zero_le_one)


/-- CONSENSUS confidence lies in `[0,1]`. -/
theorem find_consensus_conf_bounds (l : List Contribution)
    (h : ∀ c ∈ l, 0 ≤ c.confidence ∧ c.confidence ≤ 1) :
    0 ≤ (find_consensus l).2 ∧ (find_consensus l).2 ≤ 1 := by
  unfold find_consensus
  dsimp only
  refine half_sum_bounds _ _ (ratio_bounds _ _ ?_) (avgConfidence_bounds l h)
  rw [List.length_map]
  exact List.length_filter_le _ _

/-- COMPLEMENTARY confidence lies in `[0,1]`. -/
theorem combine_complementary_conf_bounds (l : List Contribution)
    (h : ∀ c ∈ l, 0 ≤ c.confidence ∧ c.confidence ≤ 1) :
    0 ≤ (combine_complementary l).2 ∧ (combine_complementary l).2 ≤ 1 := by
  unfold combine_complementary
  dsimp only
  exact clamp_bounds _ _ (avgConfidence_bounds l h).1
    (le_min (div_nonneg (by exact_mod_cast Nat.zero_le _) (by norm_num))
      zero_le_one)

/-- COMPETITIVE_EVAL confidence lies in `[0,1]`. -/
theorem competitive_evaluation_conf_bounds (l : List Contribution)
    (h : ∀ c ∈ l, 0 ≤ c.confidence ∧ c.confidence ≤ 1) :
    0 ≤ (competitive_evaluation l).2 ∧ (competitive_evaluation l).2 ≤ 1 := by
  unfold competitive_evaluation
  rcases hl : sortedByConfDesc l with _ | ⟨b, t⟩
  · norm_num
  · have hne : l ≠ [] := by
      intro h0
      subst h0
      cases hl
    rcases sortedByConfDesc_spec l hne with ⟨b', t', hbt, hbmem, _⟩
    rw [hl] at hbt
    injection hbt with hb ht
    subst hb
    exact h b hbmem

/-- The confidence any text-engine strategy computes lies in `[0,1]`. -/
theorem applyStrategy_conf_bounds (strategy : MergeStrategy)
    (l : List Contribution)
    (h : ∀ c ∈ l, 0 ≤ c.confidence ∧ c.confidence ≤ 1) :
    0 ≤ (applyStrategy strategy l).2 ∧ (applyStrategy strategy l).2 ≤ 1 := by
  cases strategy
  case synthesis => exact synthesize_conf_bounds l h
  case consensus => exact find_consensus_conf_bounds l h
  case complementary => exact combine_complementary_conf_bounds l h
  case competitive_eval => exact competitive_evaluation_conf_bounds l h

/-- A text-engine merge's confidence lies in `[0,1]` whenever individual
confidences do. -/
theorem merge_conf_bounds (l : List Contribution)
    (strategy : MergeStrategy) (ctx : String) (now : ℕ)
    (h : ∀ c ∈ l, 0 ≤ c.confidence ∧ c.confidence ≤ 1) :
    0 ≤ (merge_contributions l strategy ctx now).confidence_score ∧
    (merge_contributions l strategy ctx now).confidence_score ≤ 1 := by
  by_cases hnil : validatedContribs l ctx = []
  · have : (merge_contributions l strategy ctx now).confidence_score = 0 := by
      unfold merge_contributions
      rw [hnil, if_pos rfl]
    rw [this]
    norm_num
  · have heq : (merge_contributions l strategy ctx now).confidence_score =
        (applyStrategy strategy (validatedContribs l ctx)).2 := by
      unfold merge_contributions
      rw [if_neg hnil]
      cases strategy <;> rfl
    rw [heq]
    exact applyStrategy_conf_bounds strategy (validatedContribs l ctx)
      (fun c hc => h c (List.mem_of_mem_filter hc))

end AiMergeSystem

namespace MultiModal

/-- Multi-modal average confidence lies in `[0,1]` when the individual
confidences do. -/
theorem mm_avgConfidence_bounds (l : List MultiModalContribution)
    (h : ∀ c ∈ l, 0 ≤ c.confidence ∧ c.confidence ≤ 1) :
    0 ≤ avgConfidence l ∧ avgConfidence l ≤ 1 := by
  unfold avgConfidence
  by_cases hl : l = []
  · rw [if_pos hl]
    norm_num
  · rw [if_neg hl]
    have hsum := AiMergeSystem.sum_nonneg_le_length
      (l.map (fun c => c.confidence)) (by
        intro x hx
        rcases List.mem_map.mp hx with ⟨c, hc, hEq⟩
        exact hEq ▸ h c hc)
    rw [List.length_map] at hsum
    have hpos : (0 : ℚ) < (l.length : ℚ) := by
      have : 0 < l.length := List.length_pos.mpr hl
      exact_mod_cast this
    exact ⟨div_nonneg hsum.1 (le_of_lt hpos), by
      rw [div_le_one hpos]; exact hsum.2⟩

/-- The fallback text synthesis confidence lies in `[0,1]`. -/
theorem text_synthesis_conf_bounds (l : List MultiModalContribution)
    (h : ∀ c ∈ l, 0 ≤ c.confidence ∧ c.confidence ≤ 1) :
    0 ≤ (text_synthesis l).2 ∧ (text_synthesis l).2 ≤ 1 := by
  unfold text_synthesis
  dsimp only
  exact AiMergeSystem.clamp_bounds _ _
    (mm_avgConfidence_bounds _ (fun c hc => h c (List.mem_of_mem_filter hc))).1
    (le_min (div_nonneg (by exact_mod_cast Nat.zero_le _) (by norm_num))
      zero_le_one)

/-- The modality-specific synthesis confidence lies in `[0,1]`. -/
theorem modality_specific_conf_bounds (l : List MultiModalContribution)
    (h : ∀ c ∈ l, 0 ≤ c.confidence ∧ c.confidence ≤ 1) :
    0 ≤ (modality_specific_synthesis l).2 ∧
    (modality_specific_synthesis l).2 ≤ 1 := by
  unfold modality_specific_synthesis
  dsimp only
  exact AiMergeSystem.clamp_bounds _ _ (mm_avgConfidence_bounds l h).1
    (le_min (div_nonneg (by exact_mod_cast Nat.zero_le _) (by norm_num))
      zero_le_one)

/-- The stable-by-count insertion grows a list by exactly one element. -/
theorem insertByCountDesc_length (p : String × ℕ) (qs : List (String × ℕ)) :
    (multimodal_consensus.insertByCountDesc p qs).length = qs.length + 1 := by
  induction qs with
  | nil => rfl
  | cons q qs ih =>
      unfold multimodal_consensus.insertByCountDesc
      by_cases hq : q.2 ≤ p.2
      · rw [if_pos hq]
        rfl
      · rw [if_neg hq]
        simp [ih]

/-- Sorting the frequency table preserves its length. -/
theorem sortByCount_length (wf : List (String × ℕ)) :
    (wf.foldr (fun p acc => multimodal_consensus.insertByCountDesc p acc)
      []).length = wf.length := by
  induction wf with
  | nil => rfl
  | cons p wf ih =>
      simp only [List.foldr_cons]
      rw [insertByCountDesc_length, ih]
      rfl

/-- The multi-modal consensus confidence lies in `[0,1]`. -/
theorem multimodal_consensus_conf_bounds (l : List MultiModalContribution)
    (h : ∀ c ∈ l, 0 ≤ c.confidence ∧ c.confidence ≤ 1) :
    0 ≤ (multimodal_consensus l).2 ∧ (multimodal_consensus l).2 ≤ 1 := by
  unfold multimodal_consensus
  dsimp only
  split
  · constructor <;> norm_num
  · refine AiMergeSystem.half_sum_bounds _ _
      (AiMergeSystem.ratio_bounds _ _ ?_) (mm_avgConfidence_bounds l h)
    rw [List.length_map, List.length_take]
    exact le_trans (min_le_right _ _) (le_of_eq (sortByCount_length _))

/-- The cross-modal synthesis confidence lies in `[0,1]` provided at most
4 distinct modalities and at most 5 distinct agents appear. -/
theorem cross_modal_conf_bounds (l : List MultiModalContribution)
    (h : ∀ c ∈ l, 0 ≤ c.confidence ∧ c.confidence ≤ 1)
    (hmod : PyLib.pySetCard (l.map (fun c => c.modality)) ≤ 4)
    (hag : PyLib.pySetCard (l.map (fun c => c.agent_id)) ≤ 5) :
    0 ≤ (cross_modal_synthesis l).2 ∧ (cross_modal_synthesis l).2 ≤ 1 := by
  unfold cross_modal_synthesis
  dsimp only
  have havg := mm_avgConfidence_bounds l h
  have hm : (0 : ℚ) ≤
      (PyLib.pySetCard (l.map (fun c => c.modality)) : ℚ) / 4 ∧
      (PyLib.pySetCard (l.map (fun c => c.modality)) : ℚ) / 4 ≤ 1 := by
    constructor
    · exact div_nonneg (by exact_mod_cast Nat.zero_le _) (by norm_num)
    · rw [div_le_one (by norm_num)]
      exact_mod_cast hmod
  have ha : (0 : ℚ) ≤
      (PyLib.pySetCard (l.map (fun c => c.agent_id)) : ℚ) / 5 ∧
      (PyLib.pySetCard (l.map (fun c => c.agent_id)) : ℚ) / 5 ≤ 1 := by
    constructor
    · exact div_nonneg (by exact_mod_cast Nat.zero_le _) (by norm_num)
    · rw [div_le_one (by norm_num)]
      exact_mod_cast hag
  constructor
  · have := hm.1
    have := ha.1
    have := havg.1
    positivity
  · rw [div_le_one (by norm_num : (0:ℚ) < 3)]
    linarith [hm.2, ha.2, havg.2]

/-- Distinct-value counts never increase under filtering. -/
theorem pySetCard_filter_le {β : Type} [DecidableEq β]
    (l : List MultiModalContribution)
    (p : MultiModalContribution → Bool) (f : MultiModalContribution → β) :
    PyLib.pySetCard ((l.filter p).map f) ≤ PyLib.pySetCard (l.map f) := by
  unfold PyLib.pySetCard
  apply Finset.card_le_card
  intro x hx
  rw [List.mem_toFinset] at hx ⊢
  rcases List.mem_map.mp hx with ⟨c, hc, hEq⟩
  exact hEq ▸ List.mem_map_of_mem f (List.mem_of_mem_filter hc)

end MultiModal

/-- A multi-modal merge with surviving contributions reports the dispatched
strategy's confidence. -/
theorem mm_merge_conf_eq (fs : MultiModal.FileSystem)
    (l : List MultiModal.MultiModalContribution) (strat ctx : String)
    (now : ℕ) (hne : MultiModal.validatedContribs fs l ctx ≠ []) :
    (MultiModal.merge_contributions fs l strat ctx now).confidence_score =
      (MultiModal.applyStrategy strat
        (MultiModal.validatedContribs fs l ctx)).2 := by
  unfold MultiModal.merge_contributions
  rw [if_neg hne]

/-- A multi-modal merge with no surviving contributions reports confidence
zero. -/
theorem mm_merge_conf_empty (fs : MultiModal.FileSystem)
    (l : List MultiModal.MultiModalContribution) (strat ctx : String)
    (now : ℕ) (hnil : MultiModal.validatedContribs fs l ctx = []) :
    (MultiModal.merge_contributions fs l strat ctx now).confidence_score =
      0 := by
  unfold MultiModal.merge_contributions
  rw [hnil, if_pos rfl]

/-- C1 (amended): with all individual confidences in `[0,1]`, every
text-engine strategy and every multi-modal strategy other than
`cross_modal_synthesis` yields a merge confidence in `[0,1]`;
`cross_modal_synthesis` yields a confidence in `[0,1]` provided the input
involves at most 4 distinct modalities and at most 5 distinct agents (its
diversity terms `distinct_modalities/4` and `distinct_agents/5` are not
clamped, so it can exceed `1` otherwise). -/
theorem c1_confidence_bounds_amended :
    (∀ (l : List AiMergeSystem.Contribution)
      (strat : AiMergeSystem.MergeStrategy) (ctx : String) (now : ℕ),
      (∀ c ∈ l, 0 ≤ c.confidence ∧ c.confidence ≤ 1) →
      0 ≤ (AiMergeSystem.merge_contributions l strat ctx
        now).confidence_score ∧
      (AiMergeSystem.merge_contributions l strat ctx
        now).confidence_score ≤ 1) ∧
    (∀ (fs : MultiModal.FileSystem)
      (l : List MultiModal.MultiModalContribution) (strat ctx : String)
      (now : ℕ),
      (∀ c ∈ l, 0 ≤ c.confidence ∧ c.confidence ≤ 1) →
      strat ≠ "cross_modal_synthesis" →
      0 ≤ (MultiModal.merge_contributions fs l strat ctx
        now).confidence_score ∧
      (MultiModal.merge_contributions fs l strat ctx
        now).confidence_score ≤ 1) ∧
    (∀ (fs : MultiModal.FileSystem)
      (l : List MultiModal.MultiModalContribution) (ctx : String) (now : ℕ),
      (∀ c ∈ l, 0 ≤ c.confidence ∧ c.confidence ≤ 1) →
      PyLib.pySetCard (l.map (fun c => c.modality)) ≤ 4 →
      PyLib.pySetCard (l.map (fun c => c.agent_id)) ≤ 5 →
      0 ≤ (MultiModal.merge_contributions fs l "cross_modal_synthesis" ctx
        now).confidence_score ∧
      (MultiModal.merge_contributions fs l "cross_modal_synthesis" ctx
        now).confidence_score ≤ 1) := by
  refine ⟨?_, ?_, ?_⟩
  · intro l strat ctx now h
    exact AiMergeSystem.merge_conf_bounds l strat ctx now h
  · intro fs l strat ctx now h hstrat
    by_cases hnil : MultiModal.validatedContribs fs l ctx = []
    · rw [mm_merge_conf_empty fs l strat ctx now hnil]
      norm_num
    · rw [mm_merge_conf_eq fs l strat ctx now hnil]
      have hval : ∀ c ∈ MultiModal.validatedContribs fs l ctx,
          0 ≤ c.confidence ∧ c.confidence ≤ 1 :=
        fun c hc => h c (List.mem_of_mem_filter hc)
      unfold MultiModal.applyStrategy
      rw [if_neg hstrat]
      by_cases h2 : strat = "modality_specific"
      · rw [if_pos h2]
        exact MultiModal.modality_specific_conf_bounds _ hval
      · rw [if_neg h2]
        by_cases h3 : strat = "multimodal_consensus"
        · rw [if_pos h3]
          exact MultiModal.multimodal_consensus_conf_bounds _ hval
        · rw [if_neg h3]
          exact MultiModal.text_synthesis_conf_bounds _ hval
  · intro fs l ctx now h hmod hag
    by_cases hnil : MultiModal.validatedContribs fs l ctx = []
    · rw [mm_merge_conf_empty fs l "cross_modal_synthesis" ctx now hnil]
      norm_num
    · rw [mm_merge_conf_eq fs l "cross_modal_synthesis" ctx now hnil]
      unfold MultiModal.applyStrategy
      rw [if_pos rfl]
      exact MultiModal.cross_modal_conf_bounds _
        (fun c hc => h c (List.mem_of_mem_filter hc))
        (le_trans (MultiModal.pySetCard_filter_le l _ _) hmod)
        (le_trans (MultiModal.pySetCard_filter_le l _ _) hag)

/-- An empty file system for the C1 counterexample. -/
def c1Fs : MultiModal.FileSystem := ⟨fun _ => false, fun _ => none⟩

/-- Eleven valid TEXT contributions from eleven distinct agents, all with
confidence `1`. -/
def c1ExampleList : List MultiModal.MultiModalContribution :=
  [MultiModal.mkMMContribution "a01" { text := some "data point alpha" }
     MultiModal.ModalityType.text 5 1 "h01",
   MultiModal.mkMMContribution "a02" { text := some "data point beta" }
     MultiModal.ModalityType.text 5 1 "h02",
   MultiModal.mkMMContribution "a03" { text := some "data point gamma" }
     MultiModal.ModalityType.text 5 1 "h03",
   MultiModal.mkMMContribution "a04" { text := some "data point delta" }
     MultiModal.ModalityType.text 5 1 "h04",
   MultiModal.mkMMContribution "a05" { text := some "data point epsilon" }
     MultiModal.ModalityType.text 5 1 "h05",
   MultiModal.mkMMContribution "a06" { text := some "data point zeta" }
     MultiModal.ModalityType.text 5 1 "h06",
   MultiModal.mkMMContribution "a07" { text := some "data point eta" }
     MultiModal.ModalityType.text 5 1 "h07",
   MultiModal.mkMMContribution "a08" { text := some "data point theta" }
     MultiModal.ModalityType.text 5 1 "h08",
   MultiModal.mkMMContribution "a09" { text := some "data point iota" }
     MultiModal.ModalityType.text 5 1 "h09",
   MultiModal.mkMMContribution "a10" { text := some "data point kappa" }
     MultiModal.ModalityType.text 5 1 "h10",
   MultiModal.mkMMContribution "a11" { text := some "data point lambda" }
     MultiModal.ModalityType.text 5 1 "h11"]

unseal Rat.inv Rat.mul Rat.add Rat.sub Rat.ofScientific in
/-- C1 counterexample: on eleven valid contributions from eleven distinct
agents (all confidences exactly `1`), `cross_modal_synthesis` returns
confidence `(1/4 + 11/5 + 1)/3 = 1.15 > 1`: the merge confidence is not
clamped to `[0,1]` for this strategy. -/
theorem c1_cross_modal_exceeds_one :
    c1ExampleList.all
      (fun c => decide (0 ≤ c.confidence ∧ c.confidence ≤ 1)) = true ∧
    1 < (MultiModal.merge_contributions c1Fs c1ExampleList
      "cross_modal_synthesis" "" 0).confidence_score := by
  constructor
  · decide
  · decide

unseal Rat.inv Rat.mul Rat.add Rat.sub Rat.ofScientific in
/-- C1 witness: the amended bounds at concrete inputs — a text-engine
synthesis merge, a multi-modal `modality_specific` merge, and a
cross-modal merge within the 4-modality/5-agent limits. -/
theorem c1_confidence_bounds_amended_witness :
    ((∀ c ∈ c3ExampleList, 0 ≤ c.confidence ∧ c.confidence ≤ 1) ∧
      0 ≤ (AiMergeSystem.merge_contributions c3ExampleList
        AiMergeSystem.MergeStrategy.synthesis "" 3).confidence_score ∧
      (AiMergeSystem.merge_contributions c3ExampleList
        AiMergeSystem.MergeStrategy.synthesis "" 3).confidence_score ≤ 1) ∧
    (("modality_specific" : String) ≠ "cross_modal_synthesis" ∧
      0 ≤ (MultiModal.merge_contributions c1Fs c6List "modality_specific" ""
        3).confidence_score ∧
      (MultiModal.merge_contributions c1Fs c6List "modality_specific" ""
        3).confidence_score ≤ 1) ∧
    (PyLib.pySetCard (c6List.map (fun c => c.modality)) ≤ 4 ∧
      PyLib.pySetCard (c6List.map (fun c => c.agent_id)) ≤ 5 ∧
      0 ≤ (MultiModal.merge_contributions c1Fs c6List
        "cross_modal_synthesis" "" 3).confidence_score ∧
      (MultiModal.merge_contributions c1Fs c6List "cross_modal_synthesis" ""
        3).confidence_score ≤ 1) := by
  refine ⟨⟨by decide, ?_⟩, ⟨by decide, ?_⟩, ⟨by decide, by decide, ?_⟩⟩
  · exact c1_confidence_bounds_amended.1 c3ExampleList
      AiMergeSystem.MergeStrategy.synthesis "" 3 (by decide)
  · exact c1_confidence_bounds_amended.2.1 c1Fs c6List "modality_specific"
      "" 3 (by decide) (by decide)
  · exact c1_confidence_bounds_amended.2.2 c1Fs c6List "" 3 (by decide)
      (by decide) (by decide)
